import Mathlib

/-
Verification of fmask/cmdline/sentinel2Stacked.py (python-fmask).

The module is embedded shallowly: pure computations become Lean functions,
and the filesystem-manipulating pipeline becomes explicit state passing over
a model of the filesystem.  A state `FS` records the set of existing paths,
a counter used to generate fresh temporary-file names (mirroring
tempfile.mkstemp), and a trace of the external commands that were invoked
(gdalwarp, gdal_merge.py, the angle computation and the detection algorithm).
External collaborators (rios fileinfo.ImageInfo and the success of the
detection algorithm) are supplied through an oracle structure `Ext`.
-/

set_option maxHeartbeats 1000000

namespace Sentinel2Stacked

/-- Geometric information about a raster, as read by rios fileinfo.ImageInfo:
pixel sizes and bounding extent.  Pixel sizes and coordinates are modelled as
rationals. -/
structure ImageInfo where
  xRes : ℚ
  yRes : ℚ
  xMin : ℚ
  yMin : ℚ
  xMax : ℚ
  yMax : ℚ
deriving DecidableEq

/-- Errors raised by the module: fmaskerrors.FmaskFileError carrying its
message.  (FmaskInstallationError is raised only when a required external
tool is absent; tool lookup is modelled as succeeding, per the spec this is
a startup-time condition outside the pipeline proper.) -/
inductive FmaskError where
  | fileError (msg : String)
deriving DecidableEq

instance {ε α : Type} [DecidableEq ε] [DecidableEq α] : DecidableEq (Except ε α) :=
  fun x y =>
    match x, y with
    | .ok a, .ok b =>
      if h : a = b then isTrue (by rw [h])
      else isFalse (by intro hc; injection hc; exact h (by assumption))
    | .error e, .error f =>
      if h : e = f then isTrue (by rw [h])
      else isFalse (by intro hc; injection hc; exact h (by assumption))
    | .ok _, .error _ => isFalse (fun hc => Except.noConfusion hc)
    | .error _, .ok _ => isFalse (fun hc => Except.noConfusion hc)

/-- The modelled filesystem and process state: the set of existing paths,
the counter generating fresh temporary names, and the trace of external
command invocations (command name, argument list), most recent first. -/
structure FS where
  files : List String
  tmpCounter : Nat
  calls : List (String × List String)
deriving DecidableEq

/-- Oracle for external collaborators: what rios fileinfo.ImageInfo reports
for each path, and whether the external detection algorithm (fmask.doFmask)
succeeds. -/
structure Ext where
  imageInfo : String → ImageInfo
  detectOk : Bool

/-- State-passing computation that may fail with an FmaskError.  On failure
the state at the point of failure is kept, which models Python exceptions
propagating while the filesystem retains whatever was already created. -/
def M (α : Type) : Type := FS → Except FmaskError α × FS

def mPure {α : Type} (a : α) : M α := fun s => (Except.ok a, s)

def mBind {α β : Type} (m : M α) (f : α → M β) : M β := fun s =>
  match m s with
  | (Except.ok a, s1) => f a s1
  | (Except.error e, s1) => (Except.error e, s1)

instance : Monad M where
  pure := mPure
  bind := mBind

theorem bind_def {α β : Type} (m : M α) (f : α → M β) : (m >>= f) = mBind m f := rfl

theorem pure_def {α : Type} (a : α) : (pure a : M α) = mPure a := rfl

/-- Raising a Python exception: the error propagates, the state is kept. -/
def throwFmask {α : Type} (e : FmaskError) : M α := fun s => (Except.error e, s)

/-- The system-wide default temporary directory used by tempfile.mkstemp when
no dir argument is given (TMPDIR or the platform default).  It is a fixed
process-wide location, independent of the --tempdir command-line setting. -/
def sysTempDir : String := "/tmp"

/-- The name generated by tempfile.mkstemp for the given directory, prefix
text and suffix, at freshness counter c. -/
def mkname (dir pfx sfx : String) (c : Nat) : String :=
  dir ++ "/" ++ pfx ++ toString c ++ sfx

/-- tempfile.mkstemp(dir, prefix, suffix) followed by os.close(fd): creates a
fresh empty file in dir and returns its name. -/
def mkstemp (dir pfx sfx : String) : M String := fun s =>
  let name := mkname dir pfx sfx s.tmpCounter
  (Except.ok name,
    { files := name :: s.files, tmpCounter := s.tmpCounter + 1, calls := s.calls })

/-- tempfile.mkstemp(prefix, suffix) with no dir argument: the file is created
in the process default temporary directory, not in any configured directory. -/
def mkstempSys (pfx sfx : String) : M String := mkstemp sysTempDir pfx sfx

/-- Glob matching for the subset of glob syntax this module uses: literal
characters and the star wildcard.  A star matches any (possibly empty)
sequence of characters not containing the directory separator, as in
Python glob.  The match is computed through a structural fuel argument so
that it reduces inside the kernel; every recursive call shrinks the combined
length of the pattern and the text, so the fuel used by the wrapper below is
always sufficient and the out-of-fuel branch is unreachable. -/
def globMatchF : Nat → List Char → List Char → Bool
  | 0, _, _ => false
  | _ + 1, [], [] => true
  | _ + 1, [], _ :: _ => false
  | n + 1, '*' :: ps, [] => globMatchF n ps []
  | n + 1, '*' :: ps, c :: cs =>
    globMatchF n ps (c :: cs) || (c != '/' && globMatchF n ('*' :: ps) cs)
  | _ + 1, _ :: _, [] => false
  | n + 1, p :: ps, c :: cs => p == c && globMatchF n ps cs

/-- Whether a glob pattern matches a text, both given as character lists. -/
def globMatch (ps cs : List Char) : Bool :=
  globMatchF (ps.length + cs.length + 1) ps cs

/-- glob.glob: the existing paths matching the pattern, in filesystem order. -/
def globM (pat : String) : M (List String) := fun s =>
  (Except.ok (s.files.filter (fun f => globMatch pat.toList f.toList)), s)

/-- os.path.exists. -/
def pathExists (p : String) : M Bool := fun s => (Except.ok (decide (p ∈ s.files)), s)

/-- subprocess.check_call of an external command: recorded in the invocation
trace.  The commands invoked by this module (gdalwarp, gdal_merge.py, and the
collaborators) write their output into a path that was already created by
mkstemp, so no separate file creation is modelled here. -/
def checkCall (cmd : String) (args : List String) : M Unit := fun s =>
  (Except.ok (), { s with calls := (cmd, args) :: s.calls })

/-- os.remove. -/
def osRemove (p : String) : M Unit := fun s =>
  (Except.ok (), { s with files := s.files.filter (fun f => f ≠ p) })

/-- Creation of an output file by an external command. -/
def createFile (p : String) : M Unit := fun s =>
  (Except.ok (), { s with files := p :: s.files })

/-- The gdalwarp command name (non-Windows branch of the source). -/
def GDALWARPCMD : String := "gdalwarp"

/-- The default raster driver configured in rios (value irrelevant to the
verified properties). -/
def DEFAULTDRIVERNAME : String := "HFA"

/-- The creation options derived from the rios driver configuration (value
irrelevant to the verified properties). -/
def CMDLINECREATIONOPTIONS : List String := []

/-- The command-line arguments relevant to the pipeline (getCmdargs output).
The verbose flag only controls printing and is omitted; the remaining
detection thresholds are forwarded opaquely to the detection algorithm. -/
structure CmdArgs where
  safedir : Option String
  granuledir : Option String
  toa : Option String
  anglesfile : Option String
  output : String
  pixsize : ℚ
  keepintermediates : Bool
  tempdir : String
  cloudbufferdistance : ℚ
  shadowbufferdistance : ℚ
deriving DecidableEq

/-- Python str() applied where an Option field is known to be set; a None
value formats as the string None, as in Python. -/
def optStr (o : Option String) : String := o.getD "None"

/-- Python int() on a rational: truncation toward zero. -/
def truncInt (q : ℚ) : Int := if 0 ≤ q then ⌊q⌋ else ⌈q⌉

/-- checkAnglesFile(inputAnglesFile, toafile): if the x or y pixel size of the
angles file differs from that of the TOA file, build a nearest-neighbour VRT
of the angles at the TOA pixel size and extent (via gdalwarp) and return its
name; otherwise return the input name unchanged. -/
def checkAnglesFile (ext : Ext) (inputAnglesFile toafile : String) : M String := do
  let toaImgInfo := ext.imageInfo toafile
  let anglesImgInfo := ext.imageInfo inputAnglesFile
  if toaImgInfo.xRes ≠ anglesImgInfo.xRes ∨ toaImgInfo.yRes ≠ anglesImgInfo.yRes then do
    let vrtName ← mkstempSys "angles" ".vrt"
    checkCall GDALWARPCMD ["-q", "-of", "VRT", "-tr", toString toaImgInfo.xRes,
      toString toaImgInfo.yRes, "-te", toString toaImgInfo.xMin, toString toaImgInfo.yMin,
      toString toaImgInfo.xMax, toString toaImgInfo.yMax, "-r", "near",
      inputAnglesFile, vrtName]
    pure vrtName
  else
    pure inputAnglesFile

/-- chooseResampleMethod(outpixsize, inBandImg): picks the gdalwarp resample
method from the output pixel size and the x pixel size of the input image. -/
def chooseResampleMethod (ext : Ext) (outpixsize : ℚ) (inBandImg : String) : String :=
  let imginfo := ext.imageInfo inBandImg
  let inPixsize := imginfo.xRes
  if outpixsize = inPixsize then "near"
  else if outpixsize > inPixsize then "average"
  else "cubic"

/-- findGranuleDir(safedir): glob for GRANULE/L1C_* below the .SAFE directory;
exactly one match is returned, zero or multiple matches raise FmaskFileError. -/
def findGranuleDir (safedir : String) : M String := do
  let granuleDirPattern := safedir ++ "/GRANULE/L1C_*"
  let granuleDirList ← globM granuleDirPattern
  if granuleDirList.length = 0 then
    throwFmask (FmaskError.fileError
      ("Unable to find GRANULE sub-directory " ++ granuleDirPattern))
  else if granuleDirList.length > 1 then
    throwFmask (FmaskError.fileError
      ("Found multiple GRANULE sub-directories: " ++ String.intercalate "," granuleDirList))
  else
    pure (granuleDirList.headD "")

/-- findGranuleXml(granuleDir): the canonical MTD_TL.xml if it exists,
otherwise a fallback glob for any *.xml in the granule directory requiring
exactly one match, else FmaskFileError naming the canonical file. -/
def findGranuleXml (granuleDir : String) : M String := do
  let xmlfile := granuleDir ++ "/MTD_TL.xml"
  let found ← pathExists xmlfile
  if found then
    pure xmlfile
  else do
    let xmlfileList ← globM (granuleDir ++ "/*.xml")
    if xmlfileList.length = 1 then
      pure (xmlfileList.headD "")
    else
      throwFmask (FmaskError.fileError ("Unable to find XML file " ++ xmlfile))

/-- sentinel2makeAnglesImage.makeAngles(xmlfile, anglesfile): external angle
computation collaborator, writing into the already-created angles file. -/
def makeAngles (xmlfile anglesfile : String) : M Unit :=
  checkCall "makeAngles" [xmlfile, anglesfile]

/-- The fixed ordered band-identifier list of makeStackAndAngles. -/
def bandList : List String :=
  ["B01", "B02", "B03", "B04", "B05", "B06", "B07", "B08", "B8A",
   "B09", "B10", "B11", "B12"]

/-- The body of the per-band loop of makeStackAndAngles: create the temp VRT
name, glob for the single source file of the band, choose the resample method
and invoke gdalwarp. -/
def resampleOneBand (ext : Ext) (cmdargs : CmdArgs) (imgDir band : String) : M String := do
  let tmpBand ← mkstemp cmdargs.tempdir ("tmp_" ++ band ++ "_") ".vrt"
  let inBandImgList ← globM (imgDir ++ "/*_" ++ band ++ ".jp2")
  if inBandImgList.length ≠ 1 then
    throwFmask (FmaskError.fileError ("Cannot find input band " ++ band))
  else do
    let inBandImg := inBandImgList.headD ""
    let resampleMethod := chooseResampleMethod ext cmdargs.pixsize inBandImg
    checkCall GDALWARPCMD ["-q", "-tr", toString cmdargs.pixsize,
      toString cmdargs.pixsize, "-co", "TILED=YES", "-of", "VRT", "-r",
      resampleMethod, inBandImg, tmpBand]
    pure tmpBand

/-- The per-band loop of makeStackAndAngles, accumulating the resampled band
names in band-list order. -/
def resampleBands (ext : Ext) (cmdargs : CmdArgs) (imgDir : String) :
    List String → M (List String)
  | [] => mPure []
  | band :: rest =>
    mBind (resampleOneBand ext cmdargs imgDir band) (fun tmpBand =>
      mBind (resampleBands ext cmdargs imgDir rest) (fun others =>
        mPure (tmpBand :: others)))

/-- The final loop of makeStackAndAngles: os.remove over the resampled band
intermediates. -/
def removeAll : List String → M Unit
  | [] => mPure ()
  | fn :: rest => mBind (osRemove fn) (fun _ => removeAll rest)

/-- The opening of makeStackAndAngles: if no granule directory was given but
a .SAFE directory was, discover the granule directory.  With neither given,
the Python None formats into later paths as the string None. -/
def resolveGranuleDir (cmdargs : CmdArgs) : M String :=
  match cmdargs.granuledir, cmdargs.safedir with
  | none, some safedir => findGranuleDir safedir
  | some g, _ => mPure g
  | none, none => mPure "None"

/-- makeStackAndAngles(cmdargs): resolve the granule directory, create and
compute the angles image, resample every band of the fixed band list to the
requested pixel size, merge them (in band-list order) into a stack, then
unconditionally delete the per-band intermediates.  Returns the updated
cmdargs (granuledir, anglesfile and toa filled in) and the list of the
already-deleted per-band intermediates. -/
def makeStackAndAngles (ext : Ext) (cmdargs : CmdArgs) : M (CmdArgs × List String) := do
  let granuledir ← resolveGranuleDir cmdargs
  -- find_executable("gdal_merge.py") is modelled as succeeding
  let anglesfile ← mkstemp cmdargs.tempdir "angles_tmp_" ".img"
  let xmlfile ← findGranuleXml granuledir
  makeAngles xmlfile anglesfile
  let cmdargs1 := { cmdargs with granuledir := some granuledir, anglesfile := some anglesfile }
  let imgDir := granuledir ++ "/IMG_DATA"
  let resampledBands ← resampleBands ext cmdargs1 imgDir bandList
  let tmpStack ← mkstemp cmdargs.tempdir "tmp_allbands_" ".img"
  let cmdargs2 := { cmdargs1 with toa := some tmpStack }
  checkCall "gdal_merge.py"
    (["-q", "-of", DEFAULTDRIVERNAME] ++ CMDLINECREATIONOPTIONS ++
      ["-separate", "-o", tmpStack] ++ resampledBands)
  removeAll resampledBands
  pure (cmdargs2, resampledBands)

/-- fmask.doFmask: the external detection algorithm.  On success it writes
the output mask; on failure it raises, aborting the run. -/
def doFmask (ext : Ext) (toa anglesfile output : String)
    (cloudBufferSize shadowBufferSize : Int) : M Unit := do
  if ext.detectOk then do
    checkCall "doFmask" [toa, anglesfile, output,
      toString cloudBufferSize, toString shadowBufferSize]
    createFile output
  else
    throwFmask (FmaskError.fileError "fmask processing error")

/-- The final loop of mainRoutine: remove each of toa and anglesfile if it
exists. -/
def removeIfExists (fn : String) : M Unit := do
  let found ← pathExists fn
  if found then osRemove fn else pure ()

/-- The part of mainRoutine after the optional stack construction: reconcile
the angles grid to the TOA grid, derive pixel buffer sizes, run the detection
algorithm, then remove the reconciled-angles derivative (when one was made)
and, if the stack was pipeline-built and intermediates are not kept, remove
the stack and the computed angles file. -/
def mainTail (ext : Ext) (cmdargs : CmdArgs) (tempStack : Bool) : M Unit := do
  let toa := optStr cmdargs.toa
  let inAngles := optStr cmdargs.anglesfile
  let anglesfile ← checkAnglesFile ext inAngles toa
  let toaImgInfo := ext.imageInfo toa
  let cloudBufferSize := truncInt (cmdargs.cloudbufferdistance / toaImgInfo.xRes)
  let shadowBufferSize := truncInt (cmdargs.shadowbufferdistance / toaImgInfo.xRes)
  doFmask ext toa anglesfile cmdargs.output cloudBufferSize shadowBufferSize
  if anglesfile ≠ inAngles then
    osRemove anglesfile
  if tempStack && !cmdargs.keepintermediates then do
    removeIfExists toa
    removeIfExists inAngles

/-- mainRoutine, from after command-line parsing: build the stack and angles
when a .SAFE or granule directory was given, then run the tail above. -/
def mainRoutine (ext : Ext) (cmdargs0 : CmdArgs) : M Unit := do
  let (cmdargs, tempStack) ←
    if cmdargs0.safedir.isSome || cmdargs0.granuledir.isSome then do
      let (ca, _resampledBands) ← makeStackAndAngles ext cmdargs0
      pure (ca, true)
    else
      pure (cmdargs0, false)
  mainTail ext cmdargs tempStack

/-! ### Concrete scenarios used by witnesses and counterexamples -/

/-- A standard single-granule archive layout below the .SAFE directory S:
the directory chain, the granule metadata file, and exactly one source file
per band of the fixed band list. -/
def granuleFiles : List String :=
  "S" :: "S/GRANULE" :: "S/GRANULE/L1C_T55" :: "S/GRANULE/L1C_T55/IMG_DATA" ::
    "S/GRANULE/L1C_T55/MTD_TL.xml" ::
    bandList.map (fun b => "S/GRANULE/L1C_T55/IMG_DATA/T55_" ++ b ++ ".jp2")

/-- Initial filesystem state holding the standard archive. -/
def fsW : FS := { files := granuleFiles, tmpCounter := 0, calls := [] }

/-- Oracle on which every raster reports a 20 m grid and detection succeeds. -/
def extGood : Ext :=
  { imageInfo := fun _ =>
      { xRes := 20, yRes := 20, xMin := 0, yMin := 0, xMax := 100, yMax := 100 },
    detectOk := true }

/-- Same grids as extGood, but the detection algorithm fails. -/
def extFail : Ext := { extGood with detectOk := false }

/-- Command-line arguments of a run on the standard archive: 20 m output,
temp directory ".", intermediates not kept. -/
def caW : CmdArgs :=
  { safedir := some "S", granuledir := none, toa := none, anglesfile := none,
    output := "out.img", pixsize := 20, keepintermediates := false, tempdir := ".",
    cloudbufferdistance := 150, shadowbufferdistance := 300 }

/-- caW with the keep-intermediates retention flag enabled. -/
def caWkeep : CmdArgs := { caW with keepintermediates := true }

/-- The updated cmdargs produced by makeStackAndAngles on the standard run. -/
def caW2 : CmdArgs :=
  { caW with
    granuledir := some "S/GRANULE/L1C_T55",
    anglesfile := some "./angles_tmp_0.img",
    toa := some "./tmp_allbands_14.img" }

/-- The per-band intermediates of the standard run, in band-list order. -/
def bandsW : List String :=
  ["./tmp_B01_1.vrt", "./tmp_B02_2.vrt", "./tmp_B03_3.vrt", "./tmp_B04_4.vrt",
   "./tmp_B05_5.vrt", "./tmp_B06_6.vrt", "./tmp_B07_7.vrt", "./tmp_B08_8.vrt",
   "./tmp_B8A_9.vrt", "./tmp_B09_10.vrt", "./tmp_B10_11.vrt", "./tmp_B11_12.vrt",
   "./tmp_B12_13.vrt"]

/-- The archive with a second file matching the B02 band pattern. -/
def fsDup : FS :=
  { files := "S/GRANULE/L1C_T55/IMG_DATA/T55x_B02.jp2" :: granuleFiles,
    tmpCounter := 0, calls := [] }

/-- An archive whose GRANULE collection holds two matching subdirectories. -/
def fsTwoGranules : FS :=
  { files := ["S", "S/GRANULE", "S/GRANULE/L1C_T55", "S/GRANULE/L1C_T77"],
    tmpCounter := 0, calls := [] }

/-- An archive with no matching granule subdirectory. -/
def fsNoGranule : FS :=
  { files := ["S", "S/GRANULE"], tmpCounter := 0, calls := [] }

/-! ### Generated-name helpers -/

/-- Name of the computed angles file of a run started in state s. -/
def angName (ca : CmdArgs) (s : FS) : String :=
  mkname ca.tempdir "angles_tmp_" ".img" s.tmpCounter

/-- Name of the assembled stack of a run started in state s. -/
def stkName (ca : CmdArgs) (s : FS) : String :=
  mkname ca.tempdir "tmp_allbands_" ".img" (s.tmpCounter + 14)

/-- The names that the per-band loop generates for a band list, starting at
freshness counter c. -/
def genBandNames (d : String) (c : Nat) : List String → List String
  | [] => []
  | b :: rest => mkname d ("tmp_" ++ b ++ "_") ".vrt" c :: genBandNames d (c + 1) rest

/-! ### Run lemmas for the state monad and its primitives -/

theorem mBind_run {α β : Type} (m : M α) (f : α → M β) (s : FS) :
    mBind m f s = match m s with
      | (Except.ok a, s1) => f a s1
      | (Except.error e, s1) => (Except.error e, s1) := rfl

theorem ite_run {α : Type} (c : Prop) [Decidable c] (a b : M α) (s : FS) :
    (if c then a else b) s = if c then a s else b s := by
  by_cases h : c <;> simp [h]

theorem mBind_ok {α β : Type} {m : M α} {f : α → M β} {s s1 : FS} {a : α}
    (h : m s = (Except.ok a, s1)) : mBind m f s = f a s1 := by
  unfold mBind
  rw [h]

theorem mBind_err {α β : Type} {m : M α} {f : α → M β} {s s1 : FS} {e : FmaskError}
    (h : m s = (Except.error e, s1)) : mBind m f s = (Except.error e, s1) := by
  unfold mBind
  rw [h]

theorem mkstemp_run (d pfx sfx : String) (s : FS) :
    mkstemp d pfx sfx s = (Except.ok (mkname d pfx sfx s.tmpCounter),
      { files := mkname d pfx sfx s.tmpCounter :: s.files,
        tmpCounter := s.tmpCounter + 1, calls := s.calls }) := rfl

theorem globM_run (pat : String) (s : FS) :
    globM pat s =
      (Except.ok (s.files.filter (fun f => globMatch pat.toList f.toList)), s) := rfl

theorem checkCall_run (cmd : String) (args : List String) (s : FS) :
    checkCall cmd args s = (Except.ok (), { s with calls := (cmd, args) :: s.calls }) := rfl

/-- A computation that leaves the state untouched (performs no filesystem
writes and records no external invocation). -/
def Preserves {α : Type} (m : M α) : Prop := ∀ s, (m s).2 = s

theorem preserves_mPure {α : Type} (a : α) : Preserves (mPure a) := fun _ => rfl

theorem preserves_throw {α : Type} (e : FmaskError) : Preserves (throwFmask (α := α) e) :=
  fun _ => rfl

theorem preserves_globM (pat : String) : Preserves (globM pat) := fun _ => rfl

theorem preserves_pathExists (p : String) : Preserves (pathExists p) := fun _ => rfl

theorem preserves_mBind {α β : Type} {m : M α} {f : α → M β}
    (hm : Preserves m) (hf : ∀ a, Preserves (f a)) : Preserves (mBind m f) := by
  intro s
  have h2 := hm s
  rw [mBind_run]
  rcases hms : m s with ⟨r, s1⟩
  rw [hms] at h2
  cases r with
  | ok a =>
    have hs : s1 = s := h2
    rw [hs]
    exact hf a s
  | error e => exact h2

theorem preserves_ite {α : Type} {c : Prop} [Decidable c] {a b : M α}
    (ha : Preserves a) (hb : Preserves b) : Preserves (if c then a else b) := by
  by_cases h : c <;> simp [h, ha, hb]

/-! ### Generated-name lemmas -/

theorem ne_of_data_getLast? {a b : String} (h : a.data.getLast? ≠ b.data.getLast?) :
    a ≠ b := fun he => h (by rw [he])

theorem mkname_getLast? (d pfx : String) (sfx : String) (c : Nat) (hs : sfx.data ≠ []) :
    (mkname d pfx sfx c).data.getLast? = sfx.data.getLast? := by
  simp only [mkname, String.data_append]
  exact List.getLast?_append_of_ne_nil _ hs

theorem mkname_img_ne_vrt (d1 p1 : String) (c1 : Nat) (d2 p2 : String) (c2 : Nat) :
    mkname d1 p1 ".img" c1 ≠ mkname d2 p2 ".vrt" c2 := by
  apply ne_of_data_getLast?
  rw [mkname_getLast? _ _ _ _ (by decide), mkname_getLast? _ _ _ _ (by decide)]
  decide

theorem mkname_split (d pfx sfx : String) (c : Nat) :
    ∃ rest, mkname d pfx sfx c = d ++ "/" ++ rest := by
  refine ⟨pfx ++ toString c ++ sfx, ?_⟩
  simp [mkname, String.append_assoc]

theorem genBandNames_mem {d : String} :
    ∀ {l : List String} {c : Nat} {x : String},
      x ∈ genBandNames d c l → ∃ b c2, x = mkname d ("tmp_" ++ b ++ "_") ".vrt" c2 := by
  intro l
  induction l with
  | nil => intro c x h; simp [genBandNames] at h
  | cons b rest ih =>
    intro c x h
    simp only [genBandNames, List.mem_cons] at h
    rcases h with h | h
    · exact ⟨b, c, h⟩
    · exact ih h

theorem genBandNames_length (d : String) :
    ∀ (l : List String) (c : Nat), (genBandNames d c l).length = l.length := by
  intro l
  induction l with
  | nil => intro c; rfl
  | cons b rest ih => intro c; simp [genBandNames, ih]

theorem genBandNames_getD (d : String) :
    ∀ (l : List String) (c i : Nat), i < l.length →
      (genBandNames d c l).getD i "" =
        mkname d ("tmp_" ++ l.getD i "" ++ "_") ".vrt" (c + i) := by
  intro l
  induction l with
  | nil => intro c i hi; simp at hi
  | cons b rest ih =>
    intro c i hi
    cases i with
    | zero => simp [genBandNames]
    | succ j =>
      have hj : j < rest.length := by simpa using hi
      simp only [genBandNames, List.getD_cons_succ]
      rw [ih (c + 1) j hj]
      congr 1
      omega

/-! ### Characterization of the archive locator -/

theorem findGranuleDir_one {sd : String} {s : FS} {d : String}
    (h : s.files.filter (fun f => globMatch (sd ++ "/GRANULE/L1C_*").toList f.toList) = [d]) :
    findGranuleDir sd s = (Except.ok d, s) := by
  unfold findGranuleDir
  simp only [bind_def, mBind_run, globM, h]
  norm_num [pure_def, mPure]

theorem findGranuleDir_zero {sd : String} {s : FS}
    (h : s.files.filter (fun f => globMatch (sd ++ "/GRANULE/L1C_*").toList f.toList) = []) :
    findGranuleDir sd s =
      (Except.error (FmaskError.fileError
        ("Unable to find GRANULE sub-directory " ++ (sd ++ "/GRANULE/L1C_*"))), s) := by
  unfold findGranuleDir
  simp only [bind_def, mBind_run, globM, h]
  norm_num [throwFmask]

theorem findGranuleDir_many {sd : String} {s : FS} {lst : List String}
    (h : s.files.filter (fun f => globMatch (sd ++ "/GRANULE/L1C_*").toList f.toList) = lst)
    (hlen : lst.length > 1) :
    findGranuleDir sd s =
      (Except.error (FmaskError.fileError
        ("Found multiple GRANULE sub-directories: " ++ String.intercalate "," lst)), s) := by
  unfold findGranuleDir
  simp only [bind_def, mBind_run, globM, h]
  rw [if_neg (by omega), if_pos hlen]
  rfl

theorem findGranuleDir_preserves (sd : String) : Preserves (findGranuleDir sd) := by
  unfold findGranuleDir
  simp only [bind_def]
  refine preserves_mBind (preserves_globM _) (fun lst => ?_)
  refine preserves_ite (preserves_throw _) (preserves_ite (preserves_throw _) ?_)
  simp only [pure_def]
  exact preserves_mPure _

theorem findGranuleXml_canonical {g : String} {s : FS}
    (h : (g ++ "/MTD_TL.xml") ∈ s.files) :
    findGranuleXml g s = (Except.ok (g ++ "/MTD_TL.xml"), s) := by
  unfold findGranuleXml
  simp only [bind_def, mBind_run, pathExists]
  rw [if_pos (by simpa using h)]
  rfl

theorem findGranuleXml_fallback_one {g : String} {s : FS} {x : String}
    (h : (g ++ "/MTD_TL.xml") ∉ s.files)
    (hf : s.files.filter (fun f => globMatch (g ++ "/*.xml").toList f.toList) = [x]) :
    findGranuleXml g s = (Except.ok x, s) := by
  unfold findGranuleXml
  simp only [bind_def, mBind_run, pathExists]
  rw [if_neg (by simpa using h)]
  simp only [mBind_run, globM, hf]
  norm_num [pure_def, mPure]

theorem findGranuleXml_fallback_bad {g : String} {s : FS} {lst : List String}
    (h : (g ++ "/MTD_TL.xml") ∉ s.files)
    (hf : s.files.filter (fun f => globMatch (g ++ "/*.xml").toList f.toList) = lst)
    (hlen : lst.length ≠ 1) :
    findGranuleXml g s =
      (Except.error (FmaskError.fileError
        ("Unable to find XML file " ++ (g ++ "/MTD_TL.xml"))), s) := by
  unfold findGranuleXml
  simp only [bind_def, mBind_run, pathExists]
  rw [if_neg (by simpa using h)]
  simp only [mBind_run, globM, hf]
  rw [if_neg hlen]
  rfl

theorem findGranuleXml_preserves (g : String) : Preserves (findGranuleXml g) := by
  unfold findGranuleXml
  simp only [bind_def]
  refine preserves_mBind (preserves_pathExists _) (fun found => ?_)
  refine preserves_ite ?_ ?_
  · simp only [pure_def]; exact preserves_mPure _
  · refine preserves_mBind (preserves_globM _) (fun lst => ?_)
    refine preserves_ite ?_ (preserves_throw _)
    simp only [pure_def]
    exact preserves_mPure _

theorem resolveGranuleDir_preserves (ca : CmdArgs) : Preserves (resolveGranuleDir ca) := by
  unfold resolveGranuleDir
  rcases hg : ca.granuledir with _ | g <;> rcases hs : ca.safedir with _ | sd
  · exact preserves_mPure _
  · exact findGranuleDir_preserves _
  · exact preserves_mPure _
  · exact preserves_mPure _

/-! ### Characterization of the angle-grid reconciler -/

theorem checkAnglesFile_run_eq (ext : Ext) (a t : String) (s : FS)
    (hx : (ext.imageInfo t).xRes = (ext.imageInfo a).xRes)
    (hy : (ext.imageInfo t).yRes = (ext.imageInfo a).yRes) :
    checkAnglesFile ext a t s = (Except.ok a, s) := by
  unfold checkAnglesFile
  rw [if_neg (by push_neg; exact ⟨hx, hy⟩)]
  rfl

theorem checkAnglesFile_run_ne (ext : Ext) (a t : String) (s : FS)
    (h : (ext.imageInfo t).xRes ≠ (ext.imageInfo a).xRes ∨
      (ext.imageInfo t).yRes ≠ (ext.imageInfo a).yRes) :
    checkAnglesFile ext a t s =
      (Except.ok (mkname sysTempDir "angles" ".vrt" s.tmpCounter),
       { files := mkname sysTempDir "angles" ".vrt" s.tmpCounter :: s.files,
         tmpCounter := s.tmpCounter + 1,
         calls := (GDALWARPCMD, ["-q", "-of", "VRT", "-tr",
            toString (ext.imageInfo t).xRes, toString (ext.imageInfo t).yRes,
            "-te", toString (ext.imageInfo t).xMin, toString (ext.imageInfo t).yMin,
            toString (ext.imageInfo t).xMax, toString (ext.imageInfo t).yMax,
            "-r", "near", a,
            mkname sysTempDir "angles" ".vrt" s.tmpCounter]) :: s.calls }) := by
  unfold checkAnglesFile
  rw [if_pos h]
  rfl

/-! ### Characterization of the detection call and the cleanup helpers -/

theorem doFmask_run_ok {ext : Ext} (h : ext.detectOk = true)
    (toa anglesfile output : String) (cb sb : Int) (s : FS) :
    doFmask ext toa anglesfile output cb sb s =
      (Except.ok (),
        { files := output :: s.files,
          tmpCounter := s.tmpCounter,
          calls := ("doFmask",
            [toa, anglesfile, output, toString cb, toString sb]) :: s.calls }) := by
  unfold doFmask
  rw [if_pos h]
  rfl

theorem doFmask_run_fail {ext : Ext} (h : ext.detectOk = false)
    (toa anglesfile output : String) (cb sb : Int) (s : FS) :
    doFmask ext toa anglesfile output cb sb s =
      (Except.error (FmaskError.fileError "fmask processing error"), s) := by
  unfold doFmask
  rw [if_neg (by simp [h])]
  rfl

theorem osRemove_mem (p : String) (s : FS) (f : String) :
    f ∈ ((osRemove p s).2).files ↔ f ∈ s.files ∧ f ≠ p := by
  simp [osRemove, List.mem_filter]

theorem removeIfExists_run (fn : String) (s : FS) :
    (removeIfExists fn s).1 = Except.ok () ∧
    (removeIfExists fn s).2.tmpCounter = s.tmpCounter ∧
    (removeIfExists fn s).2.calls = s.calls ∧
    ∀ f, f ∈ (removeIfExists fn s).2.files ↔ f ∈ s.files ∧ f ≠ fn := by
  unfold removeIfExists
  simp only [bind_def, mBind_run, pathExists]
  by_cases h : fn ∈ s.files
  · rw [if_pos (by simpa using h)]
    refine ⟨rfl, rfl, rfl, ?_⟩
    intro f
    simp [osRemove, List.mem_filter]
  · rw [if_neg (by simpa using h)]
    refine ⟨rfl, rfl, rfl, ?_⟩
    intro f
    simp only [pure_def, mPure]
    constructor
    · intro hf
      exact ⟨hf, fun he => h (he ▸ hf)⟩
    · intro hf
      exact hf.1

theorem removeAll_run (l : List String) : ∀ (s : FS),
    (removeAll l s).1 = Except.ok () ∧
    (removeAll l s).2.tmpCounter = s.tmpCounter ∧
    (removeAll l s).2.calls = s.calls ∧
    ∀ f, f ∈ (removeAll l s).2.files ↔ f ∈ s.files ∧ f ∉ l := by
  induction l with
  | nil =>
    intro s
    simp [removeAll, mPure]
  | cons fn rest ih =>
    intro s
    simp only [removeAll, mBind_run, osRemove]
    obtain ⟨h1, h2, h3, h4⟩ := ih { s with files := s.files.filter (fun f => f ≠ fn) }
    refine ⟨h1, h2, h3, ?_⟩
    intro f
    rw [h4 f]
    simp only [List.mem_filter, decide_eq_true_eq, List.mem_cons]
    constructor
    · rintro ⟨⟨hmem, hne⟩, hnin⟩
      exact ⟨hmem, by rintro (h | h) <;> [exact hne h; exact hnin h]⟩
    · rintro ⟨hmem, hnin⟩
      exact ⟨⟨hmem, fun he => hnin (Or.inl he)⟩, fun hr => hnin (Or.inr hr)⟩

/-! ### Characterization of the per-band loop -/

theorem resampleOneBand_ok {ext : Ext} {ca : CmdArgs} {imgDir band : String} {s : FS}
    {v : String} {s1 : FS}
    (h : resampleOneBand ext ca imgDir band s = (Except.ok v, s1)) :
    v = mkname ca.tempdir ("tmp_" ++ band ++ "_") ".vrt" s.tmpCounter ∧
    s1.files = v :: s.files ∧ s1.tmpCounter = s.tmpCounter + 1 ∧
    ∃ cargs, s1.calls = (GDALWARPCMD, cargs) :: s.calls := by
  unfold resampleOneBand at h
  simp only [bind_def] at h
  rw [mBind_ok (mkstemp_run _ _ _ _), mBind_ok (globM_run _ _)] at h
  rw [ite_run] at h
  split at h
  · simp [throwFmask] at h
  · simp only [bind_def] at h
    rw [mBind_ok (checkCall_run _ _ _), pure_def] at h
    simp only [mPure] at h
    injection h with h1 h2
    injection h1 with hv
    subst hv
    subst h2
    exact ⟨rfl, rfl, rfl, ⟨_, rfl⟩⟩

theorem resampleOneBand_err {ext : Ext} {ca : CmdArgs} {imgDir band : String} {s : FS}
    (h : ((mkname ca.tempdir ("tmp_" ++ band ++ "_") ".vrt" s.tmpCounter :: s.files).filter
        (fun f => globMatch (imgDir ++ "/*_" ++ band ++ ".jp2").toList f.toList)).length ≠ 1) :
    resampleOneBand ext ca imgDir band s =
      (Except.error (FmaskError.fileError ("Cannot find input band " ++ band)),
       { files := mkname ca.tempdir ("tmp_" ++ band ++ "_") ".vrt" s.tmpCounter :: s.files,
         tmpCounter := s.tmpCounter + 1,
         calls := s.calls }) := by
  unfold resampleOneBand
  simp only [bind_def]
  rw [mBind_ok (mkstemp_run _ _ _ _), mBind_ok (globM_run _ _)]
  rw [ite_run, if_pos h]
  rfl

theorem resampleBands_ok {ext : Ext} {ca : CmdArgs} {imgDir : String} :
    ∀ (l : List String) (s : FS) (bands : List String) (s1 : FS),
      resampleBands ext ca imgDir l s = (Except.ok bands, s1) →
      bands = genBandNames ca.tempdir s.tmpCounter l ∧
      s1.files = bands.reverse ++ s.files ∧
      s1.tmpCounter = s.tmpCounter + l.length ∧
      ∃ newCalls, s1.calls = newCalls ++ s.calls := by
  intro l
  induction l with
  | nil =>
    intro s bands s1 h
    simp only [resampleBands, mPure] at h
    injection h with h1 h2
    injection h1 with hb
    subst h2
    cases hb
    exact ⟨rfl, rfl, by simp, ⟨[], rfl⟩⟩
  | cons band rest ih =>
    intro s bands s1 h
    simp only [resampleBands] at h
    rcases h0 : resampleOneBand ext ca imgDir band s with ⟨r0, st0⟩
    cases r0 with
    | error e => rw [mBind_err h0] at h; simp at h
    | ok v =>
      rw [mBind_ok h0] at h
      rcases h1 : resampleBands ext ca imgDir rest st0 with ⟨r1, st1⟩
      cases r1 with
      | error e => rw [mBind_err h1] at h; simp at h
      | ok others =>
        rw [mBind_ok h1] at h
        simp only [mPure] at h
        injection h with hb hs
        injection hb with hb2
        cases hb2
        subst hs
        obtain ⟨hv, hfiles0, hc0, cargs, hcalls0⟩ := resampleOneBand_ok h0
        obtain ⟨hothers, hfiles1, hc1, newCalls, hcalls1⟩ := ih st0 others st1 h1
        refine ⟨?_, ?_, ?_, ?_⟩
        · rw [genBandNames, ← hv, hothers, hc0]
        · rw [hfiles1, hfiles0]
          simp [List.reverse_cons, List.append_assoc]
        · rw [hc1, hc0]
          simp only [List.length_cons]
          omega
        · exact ⟨newCalls ++ [(GDALWARPCMD, cargs)], by rw [hcalls1, hcalls0]; simp⟩

theorem resampleOneBand_run {ext : Ext} {ca : CmdArgs} {imgDir band : String} {s : FS}
    (img : String)
    (h : ((mkname ca.tempdir ("tmp_" ++ band ++ "_") ".vrt" s.tmpCounter :: s.files).filter
        (fun f => globMatch (imgDir ++ "/*_" ++ band ++ ".jp2").toList f.toList)) = [img]) :
    resampleOneBand ext ca imgDir band s =
      (Except.ok (mkname ca.tempdir ("tmp_" ++ band ++ "_") ".vrt" s.tmpCounter),
       { files := mkname ca.tempdir ("tmp_" ++ band ++ "_") ".vrt" s.tmpCounter :: s.files,
         tmpCounter := s.tmpCounter + 1,
         calls := (GDALWARPCMD, ["-q", "-tr", toString ca.pixsize, toString ca.pixsize,
           "-co", "TILED=YES", "-of", "VRT", "-r",
           chooseResampleMethod ext ca.pixsize img, img,
           mkname ca.tempdir ("tmp_" ++ band ++ "_") ".vrt" s.tmpCounter]) :: s.calls }) := by
  unfold resampleOneBand
  simp only [bind_def]
  rw [mBind_ok (mkstemp_run _ _ _ _), mBind_ok (globM_run _ _)]
  try dsimp only
  rw [ite_run, h]
  rw [if_neg (by simp)]
  try simp only [bind_def]
  rw [mBind_ok (checkCall_run _ _ _)]
  rfl

theorem resampleBands_nil (ext : Ext) (ca : CmdArgs) (imgDir : String) (s : FS) :
    resampleBands ext ca imgDir [] s = (Except.ok [], s) := rfl

theorem resampleBands_cons_ok {ext : Ext} {ca : CmdArgs} {imgDir band : String}
    {rest : List String} {s s1 s2 : FS} {v : String} {l : List String}
    (h1 : resampleOneBand ext ca imgDir band s = (Except.ok v, s1))
    (h2 : resampleBands ext ca imgDir rest s1 = (Except.ok l, s2)) :
    resampleBands ext ca imgDir (band :: rest) s = (Except.ok (v :: l), s2) := by
  simp only [resampleBands]
  rw [mBind_ok h1, mBind_ok h2]
  rfl

/-! ### Characterization of a successful makeStackAndAngles run -/

theorem makeStackAndAngles_run {ext : Ext} {ca : CmdArgs} {s : FS} {g xml : String}
    {bandsv : List String} {sc s4 : FS}
    (h1 : resolveGranuleDir ca s = (Except.ok g, s))
    (h2 : findGranuleXml g
        { files := mkname ca.tempdir "angles_tmp_" ".img" s.tmpCounter :: s.files,
          tmpCounter := s.tmpCounter + 1, calls := s.calls } =
      (Except.ok xml,
       { files := mkname ca.tempdir "angles_tmp_" ".img" s.tmpCounter :: s.files,
         tmpCounter := s.tmpCounter + 1, calls := s.calls }))
    (h3 : resampleBands ext
        { ca with
          granuledir := some g,
          anglesfile := some (mkname ca.tempdir "angles_tmp_" ".img" s.tmpCounter) }
        (g ++ "/IMG_DATA") bandList
        { files := mkname ca.tempdir "angles_tmp_" ".img" s.tmpCounter :: s.files,
          tmpCounter := s.tmpCounter + 1,
          calls := ("makeAngles",
            [xml, mkname ca.tempdir "angles_tmp_" ".img" s.tmpCounter]) :: s.calls } =
      (Except.ok bandsv, sc))
    (h4 : removeAll bandsv
        { files := mkname ca.tempdir "tmp_allbands_" ".img" sc.tmpCounter :: sc.files,
          tmpCounter := sc.tmpCounter + 1,
          calls := ("gdal_merge.py",
            ["-q", "-of", DEFAULTDRIVERNAME] ++ CMDLINECREATIONOPTIONS ++
              ["-separate", "-o", mkname ca.tempdir "tmp_allbands_" ".img" sc.tmpCounter] ++
              bandsv) :: sc.calls } = (Except.ok (), s4)) :
    makeStackAndAngles ext ca s =
      (Except.ok
        ({ ca with
           granuledir := some g,
           anglesfile := some (mkname ca.tempdir "angles_tmp_" ".img" s.tmpCounter),
           toa := some (mkname ca.tempdir "tmp_allbands_" ".img" sc.tmpCounter) }, bandsv),
       s4) := by
  unfold makeStackAndAngles
  simp only [bind_def]
  rw [mBind_ok h1]
  try dsimp only
  rw [mBind_ok (mkstemp_run _ _ _ _)]
  try dsimp only
  rw [mBind_ok h2]
  try dsimp only
  simp only [makeAngles]
  rw [mBind_ok (checkCall_run _ _ _)]
  try dsimp only
  rw [mBind_ok h3]
  try dsimp only
  rw [mBind_ok (mkstemp_run _ _ _ _)]
  try dsimp only
  rw [mBind_ok (checkCall_run _ _ _)]
  try dsimp only
  rw [mBind_ok h4, pure_def]
  rfl

/-! ### Characterization of a successful makeStackAndAngles result -/

theorem makeStackAndAngles_ok_spec {ext : Ext} {ca ca' : CmdArgs} {bands : List String}
    {s s1 : FS}
    (h : makeStackAndAngles ext ca s = (Except.ok (ca', bands), s1)) :
    (∃ g, ca' =
      { ca with
        granuledir := some g,
        anglesfile := some (angName ca s),
        toa := some (stkName ca s) }) ∧
    ca'.anglesfile = some (angName ca s) ∧
    ca'.toa = some (stkName ca s) ∧
    bands = genBandNames ca.tempdir (s.tmpCounter + 1) bandList ∧
    s1.tmpCounter = s.tmpCounter + 15 ∧
    (∃ rest, s1.calls = ("gdal_merge.py",
        ["-q", "-of", DEFAULTDRIVERNAME] ++ CMDLINECREATIONOPTIONS ++
          ["-separate", "-o", stkName ca s] ++ bands) :: rest) ∧
    (∀ f, f ∈ s1.files ↔
      (f = stkName ca s ∨ f = angName ca s ∨ f ∈ s.files) ∧ f ∉ bands) := by
  unfold makeStackAndAngles at h
  simp only [bind_def] at h
  rcases hg0 : resolveGranuleDir ca s with ⟨rg, sg⟩
  have hg : resolveGranuleDir ca s = (rg, s) := by
    have hp := resolveGranuleDir_preserves ca s
    rw [hg0] at hp
    have hp2 : sg = s := hp
    rw [hg0, hp2]
  cases rg with
  | error e => rw [mBind_err hg] at h; simp at h
  | ok g =>
    rw [mBind_ok hg] at h
    try dsimp only at h
    rw [mBind_ok (mkstemp_run _ _ _ _)] at h
    try dsimp only at h
    rcases hx0 : findGranuleXml g
        { files := mkname ca.tempdir "angles_tmp_" ".img" s.tmpCounter :: s.files,
          tmpCounter := s.tmpCounter + 1, calls := s.calls } with ⟨rx, sx⟩
    have hx : findGranuleXml g
        { files := mkname ca.tempdir "angles_tmp_" ".img" s.tmpCounter :: s.files,
          tmpCounter := s.tmpCounter + 1, calls := s.calls } =
        (rx,
         { files := mkname ca.tempdir "angles_tmp_" ".img" s.tmpCounter :: s.files,
           tmpCounter := s.tmpCounter + 1, calls := s.calls }) := by
      have hp := findGranuleXml_preserves g
        { files := mkname ca.tempdir "angles_tmp_" ".img" s.tmpCounter :: s.files,
          tmpCounter := s.tmpCounter + 1, calls := s.calls }
      rw [hx0] at hp
      have hp2 : sx =
          { files := mkname ca.tempdir "angles_tmp_" ".img" s.tmpCounter :: s.files,
            tmpCounter := s.tmpCounter + 1, calls := s.calls } := hp
      rw [hx0, hp2]
    cases rx with
    | error e => rw [mBind_err hx] at h; simp at h
    | ok xml =>
      rw [mBind_ok hx] at h
      try dsimp only at h
      simp only [makeAngles] at h
      rw [mBind_ok (checkCall_run _ _ _)] at h
      try dsimp only at h
      rcases hrb : resampleBands ext
          { ca with
            granuledir := some g,
            anglesfile := some (mkname ca.tempdir "angles_tmp_" ".img" s.tmpCounter) }
          (g ++ "/IMG_DATA") bandList
          { files := mkname ca.tempdir "angles_tmp_" ".img" s.tmpCounter :: s.files,
            tmpCounter := s.tmpCounter + 1,
            calls := ("makeAngles",
              [xml, mkname ca.tempdir "angles_tmp_" ".img" s.tmpCounter]) :: s.calls }
          with ⟨rb, sc⟩
      cases rb with
      | error e => rw [mBind_err hrb] at h; simp at h
      | ok bandsv =>
        rw [mBind_ok hrb] at h
        try dsimp only at h
        rw [mBind_ok (mkstemp_run _ _ _ _)] at h
        try dsimp only at h
        rw [mBind_ok (checkCall_run _ _ _)] at h
        try dsimp only at h
        obtain ⟨hbv, hscf, hsct, newCalls, hscc⟩ := resampleBands_ok bandList _ bandsv sc hrb
        dsimp only at hbv hscf hsct hscc
        have hsc14 : sc.tmpCounter = s.tmpCounter + 14 := by
          rw [hsct]
          norm_num [bandList]
        set s3 : FS :=
          { files := mkname ca.tempdir "tmp_allbands_" ".img" sc.tmpCounter :: sc.files,
            tmpCounter := sc.tmpCounter + 1,
            calls := ("gdal_merge.py",
              ["-q", "-of", DEFAULTDRIVERNAME] ++ CMDLINECREATIONOPTIONS ++
                ["-separate", "-o", mkname ca.tempdir "tmp_allbands_" ".img" sc.tmpCounter] ++
                bandsv) :: sc.calls } with hs3
        have hre : removeAll bandsv s3 = (Except.ok (), (removeAll bandsv s3).2) := by


          have h1 := (removeAll_run bandsv s3).1
          exact Prod.ext h1 rfl
        rw [mBind_ok hre, pure_def] at h
        simp only [mPure] at h
        injection h with hpair hstate
        injection hpair with hpair2
        injection hpair2 with hca hbands
        obtain ⟨hr1, hrt, hrc, hrf⟩ := removeAll_run bandsv s3
        have hstk : mkname ca.tempdir "tmp_allbands_" ".img" sc.tmpCounter = stkName ca s := by
          rw [hsc14, stkName]
        refine ⟨⟨g, ?_⟩, ?_, ?_, ?_, ?_, ?_, ?_⟩
        · rw [← hca, hstk]; rfl
        · rw [← hca, hstk]; rfl
        · rw [← hca, hstk]
        · rw [← hbands, hbv]
        · rw [← hstate, hrt, hs3, hsc14]
        · refine ⟨sc.calls, ?_⟩
          rw [← hstate, hrc, hs3, hstk, hbands]
        · intro f
          rw [← hstate, hrf f, hs3, ← hbands]
          dsimp only
          rw [hscf]
          simp only [List.mem_cons, List.mem_append, List.mem_reverse, hstk]
          constructor
          · rintro ⟨hmem, hnb⟩
            refine ⟨?_, hnb⟩
            rcases hmem with hmem | hmem | hmem | hmem
            · exact Or.inl hmem
            · exact absurd (hbv ▸ hmem) (by rw [← hbv]; exact fun hx2 => hnb hx2)
            · exact Or.inr (Or.inl hmem)
            · exact Or.inr (Or.inr hmem)
          · rintro ⟨hmem, hnb⟩
            refine ⟨?_, hnb⟩
            rcases hmem with hmem | hmem | hmem
            · exact Or.inl hmem
            · exact Or.inr (Or.inr (Or.inl hmem))
            · exact Or.inr (Or.inr (Or.inr hmem))

/-! ### Further concrete scenarios -/

/-- Oracle distinguishing three band files with native pixel sizes 10, 20
and 60 metres. -/
def extBands : Ext :=
  { imageInfo := fun p =>
      if p = "b10.jp2" then
        { xRes := 10, yRes := 10, xMin := 0, yMin := 0, xMax := 100, yMax := 100 }
      else if p = "b20.jp2" then
        { xRes := 20, yRes := 20, xMin := 0, yMin := 0, xMax := 100, yMax := 100 }
      else
        { xRes := 60, yRes := 60, xMin := 0, yMin := 0, xMax := 100, yMax := 100 },
    detectOk := true }

/-- Oracle on which two rasters share the x pixel size 20 but have different
y pixel sizes (10 versus 60), neither equal to the requested 20 m output. -/
def extYdiff : Ext :=
  { imageInfo := fun p =>
      if p = "a.jp2" then
        { xRes := 20, yRes := 10, xMin := 0, yMin := 0, xMax := 100, yMax := 100 }
      else
        { xRes := 20, yRes := 60, xMin := 0, yMin := 0, xMax := 100, yMax := 100 },
    detectOk := true }

/-- Oracle on which the computed angles file has a 10 m grid while every
other raster has a 20 m grid, forcing angle-grid reconciliation. -/
def extMM : Ext :=
  { imageInfo := fun p =>
      if p = "./mytmp/angles_tmp_0.img" then
        { xRes := 10, yRes := 10, xMin := 0, yMin := 0, xMax := 100, yMax := 100 }
      else
        { xRes := 20, yRes := 20, xMin := 0, yMin := 0, xMax := 100, yMax := 100 },
    detectOk := true }

/-- A run configured with the temp directory ./mytmp. -/
def caMM : CmdArgs := { caW with tempdir := "./mytmp" }

/-- A granule directory with no canonical metadata file and one other XML. -/
def fsXmlOnly : FS :=
  { files := ["G", "G/tile_metadata.xml"], tmpCounter := 0, calls := [] }

/-- Whether the first character list occurs contiguously inside the second. -/
def hasInfix (needle : List Char) : List Char → Bool
  | [] => needle.isEmpty
  | c :: cs => needle.isPrefixOf (c :: cs) || hasInfix needle cs


/-! ### Concrete pipeline runs, built stepwise -/

/-- The updated cmdargs produced by makeStackAndAngles on the ./mytmp run. -/
def caMM2 : CmdArgs :=
  { caMM with
    granuledir := some "S/GRANULE/L1C_T55",
    anglesfile := some "./mytmp/angles_tmp_0.img",
    toa := some "./mytmp/tmp_allbands_14.img" }

/-- The imagery directory of the standard granule. -/
def imgD : String := "S/GRANULE/L1C_T55/IMG_DATA"

/-- The per-band intermediates of the ./mytmp run, in band-list order. -/
def bandsM : List String :=
  ["./mytmp/tmp_B01_1.vrt",
   "./mytmp/tmp_B02_2.vrt",
   "./mytmp/tmp_B03_3.vrt",
   "./mytmp/tmp_B04_4.vrt",
   "./mytmp/tmp_B05_5.vrt",
   "./mytmp/tmp_B06_6.vrt",
   "./mytmp/tmp_B07_7.vrt",
   "./mytmp/tmp_B08_8.vrt",
   "./mytmp/tmp_B8A_9.vrt",
   "./mytmp/tmp_B09_10.vrt",
   "./mytmp/tmp_B10_11.vrt",
   "./mytmp/tmp_B11_12.vrt",
   "./mytmp/tmp_B12_13.vrt"]

/-- The cmdargs after the granule directory and angles file are filled in. -/
def caMidW : CmdArgs :=
  { caW with
    granuledir := some "S/GRANULE/L1C_T55",
    anglesfile := some "./angles_tmp_0.img" }

/-- State after the angles temp file is created. -/
def stAW : FS :=
  { files := "./angles_tmp_0.img" :: fsW.files, tmpCounter := 1, calls := [] }

/-- State after the angle computation collaborator has run. -/
def stBW0 : FS :=
  { files := "./angles_tmp_0.img" :: fsW.files, tmpCounter := 1,
    calls := [("makeAngles", ["S/GRANULE/L1C_T55/MTD_TL.xml", "./angles_tmp_0.img"])] }

/-- State after band B01 is resampled. -/
def stBW1 : FS :=
  { files := "./tmp_B01_1.vrt" :: stBW0.files, tmpCounter := 2,
    calls := (GDALWARPCMD, ["-q", "-tr", "20", "20", "-co", "TILED=YES", "-of", "VRT",
      "-r", "near", "S/GRANULE/L1C_T55/IMG_DATA/T55_B01.jp2", "./tmp_B01_1.vrt"]) :: stBW0.calls }

/-- State after band B02 is resampled. -/
def stBW2 : FS :=
  { files := "./tmp_B02_2.vrt" :: stBW1.files, tmpCounter := 3,
    calls := (GDALWARPCMD, ["-q", "-tr", "20", "20", "-co", "TILED=YES", "-of", "VRT",
      "-r", "near", "S/GRANULE/L1C_T55/IMG_DATA/T55_B02.jp2", "./tmp_B02_2.vrt"]) :: stBW1.calls }

/-- State after band B03 is resampled. -/
def stBW3 : FS :=
  { files := "./tmp_B03_3.vrt" :: stBW2.files, tmpCounter := 4,
    calls := (GDALWARPCMD, ["-q", "-tr", "20", "20", "-co", "TILED=YES", "-of", "VRT",
      "-r", "near", "S/GRANULE/L1C_T55/IMG_DATA/T55_B03.jp2", "./tmp_B03_3.vrt"]) :: stBW2.calls }

/-- State after band B04 is resampled. -/
def stBW4 : FS :=
  { files := "./tmp_B04_4.vrt" :: stBW3.files, tmpCounter := 5,
    calls := (GDALWARPCMD, ["-q", "-tr", "20", "20", "-co", "TILED=YES", "-of", "VRT",
      "-r", "near", "S/GRANULE/L1C_T55/IMG_DATA/T55_B04.jp2", "./tmp_B04_4.vrt"]) :: stBW3.calls }

/-- State after band B05 is resampled. -/
def stBW5 : FS :=
  { files := "./tmp_B05_5.vrt" :: stBW4.files, tmpCounter := 6,
    calls := (GDALWARPCMD, ["-q", "-tr", "20", "20", "-co", "TILED=YES", "-of", "VRT",
      "-r", "near", "S/GRANULE/L1C_T55/IMG_DATA/T55_B05.jp2", "./tmp_B05_5.vrt"]) :: stBW4.calls }

/-- State after band B06 is resampled. -/
def stBW6 : FS :=
  { files := "./tmp_B06_6.vrt" :: stBW5.files, tmpCounter := 7,
    calls := (GDALWARPCMD, ["-q", "-tr", "20", "20", "-co", "TILED=YES", "-of", "VRT",
      "-r", "near", "S/GRANULE/L1C_T55/IMG_DATA/T55_B06.jp2", "./tmp_B06_6.vrt"]) :: stBW5.calls }

/-- State after band B07 is resampled. -/
def stBW7 : FS :=
  { files := "./tmp_B07_7.vrt" :: stBW6.files, tmpCounter := 8,
    calls := (GDALWARPCMD, ["-q", "-tr", "20", "20", "-co", "TILED=YES", "-of", "VRT",
      "-r", "near", "S/GRANULE/L1C_T55/IMG_DATA/T55_B07.jp2", "./tmp_B07_7.vrt"]) :: stBW6.calls }

/-- State after band B08 is resampled. -/
def stBW8 : FS :=
  { files := "./tmp_B08_8.vrt" :: stBW7.files, tmpCounter := 9,
    calls := (GDALWARPCMD, ["-q", "-tr", "20", "20", "-co", "TILED=YES", "-of", "VRT",
      "-r", "near", "S/GRANULE/L1C_T55/IMG_DATA/T55_B08.jp2", "./tmp_B08_8.vrt"]) :: stBW7.calls }

/-- State after band B8A is resampled. -/
def stBW9 : FS :=
  { files := "./tmp_B8A_9.vrt" :: stBW8.files, tmpCounter := 10,
    calls := (GDALWARPCMD, ["-q", "-tr", "20", "20", "-co", "TILED=YES", "-of", "VRT",
      "-r", "near", "S/GRANULE/L1C_T55/IMG_DATA/T55_B8A.jp2", "./tmp_B8A_9.vrt"]) :: stBW8.calls }

/-- State after band B09 is resampled. -/
def stBW10 : FS :=
  { files := "./tmp_B09_10.vrt" :: stBW9.files, tmpCounter := 11,
    calls := (GDALWARPCMD, ["-q", "-tr", "20", "20", "-co", "TILED=YES", "-of", "VRT",
      "-r", "near", "S/GRANULE/L1C_T55/IMG_DATA/T55_B09.jp2", "./tmp_B09_10.vrt"]) :: stBW9.calls }

/-- State after band B10 is resampled. -/
def stBW11 : FS :=
  { files := "./tmp_B10_11.vrt" :: stBW10.files, tmpCounter := 12,
    calls := (GDALWARPCMD, ["-q", "-tr", "20", "20", "-co", "TILED=YES", "-of", "VRT",
      "-r", "near", "S/GRANULE/L1C_T55/IMG_DATA/T55_B10.jp2", "./tmp_B10_11.vrt"]) :: stBW10.calls }

/-- State after band B11 is resampled. -/
def stBW12 : FS :=
  { files := "./tmp_B11_12.vrt" :: stBW11.files, tmpCounter := 13,
    calls := (GDALWARPCMD, ["-q", "-tr", "20", "20", "-co", "TILED=YES", "-of", "VRT",
      "-r", "near", "S/GRANULE/L1C_T55/IMG_DATA/T55_B11.jp2", "./tmp_B11_12.vrt"]) :: stBW11.calls }

/-- State after band B12 is resampled. -/
def stBW13 : FS :=
  { files := "./tmp_B12_13.vrt" :: stBW12.files, tmpCounter := 14,
    calls := (GDALWARPCMD, ["-q", "-tr", "20", "20", "-co", "TILED=YES", "-of", "VRT",
      "-r", "near", "S/GRANULE/L1C_T55/IMG_DATA/T55_B12.jp2", "./tmp_B12_13.vrt"]) :: stBW12.calls }

/-- State after the stack is created and the merge tool has run. -/
def stMergeW : FS :=
  { files := "./tmp_allbands_14.img" :: stBW13.files, tmpCounter := 15,
    calls := ("gdal_merge.py",
      ["-q", "-of", DEFAULTDRIVERNAME] ++ CMDLINECREATIONOPTIONS ++
        ["-separate", "-o", "./tmp_allbands_14.img"] ++ bandsW) :: stBW13.calls }

/-- The cmdargs after the granule directory and angles file are filled in. -/
def caMidM : CmdArgs :=
  { caMM with
    granuledir := some "S/GRANULE/L1C_T55",
    anglesfile := some "./mytmp/angles_tmp_0.img" }

/-- State after the angles temp file is created. -/
def stAM : FS :=
  { files := "./mytmp/angles_tmp_0.img" :: fsW.files, tmpCounter := 1, calls := [] }

/-- State after the angle computation collaborator has run. -/
def stBM0 : FS :=
  { files := "./mytmp/angles_tmp_0.img" :: fsW.files, tmpCounter := 1,
    calls := [("makeAngles", ["S/GRANULE/L1C_T55/MTD_TL.xml", "./mytmp/angles_tmp_0.img"])] }

/-- State after band B01 is resampled. -/
def stBM1 : FS :=
  { files := "./mytmp/tmp_B01_1.vrt" :: stBM0.files, tmpCounter := 2,
    calls := (GDALWARPCMD, ["-q", "-tr", "20", "20", "-co", "TILED=YES", "-of", "VRT",
      "-r", "near", "S/GRANULE/L1C_T55/IMG_DATA/T55_B01.jp2", "./mytmp/tmp_B01_1.vrt"]) :: stBM0.calls }

/-- State after band B02 is resampled. -/
def stBM2 : FS :=
  { files := "./mytmp/tmp_B02_2.vrt" :: stBM1.files, tmpCounter := 3,
    calls := (GDALWARPCMD, ["-q", "-tr", "20", "20", "-co", "TILED=YES", "-of", "VRT",
      "-r", "near", "S/GRANULE/L1C_T55/IMG_DATA/T55_B02.jp2", "./mytmp/tmp_B02_2.vrt"]) :: stBM1.calls }

/-- State after band B03 is resampled. -/
def stBM3 : FS :=
  { files := "./mytmp/tmp_B03_3.vrt" :: stBM2.files, tmpCounter := 4,
    calls := (GDALWARPCMD, ["-q", "-tr", "20", "20", "-co", "TILED=YES", "-of", "VRT",
      "-r", "near", "S/GRANULE/L1C_T55/IMG_DATA/T55_B03.jp2", "./mytmp/tmp_B03_3.vrt"]) :: stBM2.calls }

/-- State after band B04 is resampled. -/
def stBM4 : FS :=
  { files := "./mytmp/tmp_B04_4.vrt" :: stBM3.files, tmpCounter := 5,
    calls := (GDALWARPCMD, ["-q", "-tr", "20", "20", "-co", "TILED=YES", "-of", "VRT",
      "-r", "near", "S/GRANULE/L1C_T55/IMG_DATA/T55_B04.jp2", "./mytmp/tmp_B04_4.vrt"]) :: stBM3.calls }

/-- State after band B05 is resampled. -/
def stBM5 : FS :=
  { files := "./mytmp/tmp_B05_5.vrt" :: stBM4.files, tmpCounter := 6,
    calls := (GDALWARPCMD, ["-q", "-tr", "20", "20", "-co", "TILED=YES", "-of", "VRT",
      "-r", "near", "S/GRANULE/L1C_T55/IMG_DATA/T55_B05.jp2", "./mytmp/tmp_B05_5.vrt"]) :: stBM4.calls }

/-- State after band B06 is resampled. -/
def stBM6 : FS :=
  { files := "./mytmp/tmp_B06_6.vrt" :: stBM5.files, tmpCounter := 7,
    calls := (GDALWARPCMD, ["-q", "-tr", "20", "20", "-co", "TILED=YES", "-of", "VRT",
      "-r", "near", "S/GRANULE/L1C_T55/IMG_DATA/T55_B06.jp2", "./mytmp/tmp_B06_6.vrt"]) :: stBM5.calls }

/-- State after band B07 is resampled. -/
def stBM7 : FS :=
  { files := "./mytmp/tmp_B07_7.vrt" :: stBM6.files, tmpCounter := 8,
    calls := (GDALWARPCMD, ["-q", "-tr", "20", "20", "-co", "TILED=YES", "-of", "VRT",
      "-r", "near", "S/GRANULE/L1C_T55/IMG_DATA/T55_B07.jp2", "./mytmp/tmp_B07_7.vrt"]) :: stBM6.calls }

/-- State after band B08 is resampled. -/
def stBM8 : FS :=
  { files := "./mytmp/tmp_B08_8.vrt" :: stBM7.files, tmpCounter := 9,
    calls := (GDALWARPCMD, ["-q", "-tr", "20", "20", "-co", "TILED=YES", "-of", "VRT",
      "-r", "near", "S/GRANULE/L1C_T55/IMG_DATA/T55_B08.jp2", "./mytmp/tmp_B08_8.vrt"]) :: stBM7.calls }

/-- State after band B8A is resampled. -/
def stBM9 : FS :=
  { files := "./mytmp/tmp_B8A_9.vrt" :: stBM8.files, tmpCounter := 10,
    calls := (GDALWARPCMD, ["-q", "-tr", "20", "20", "-co", "TILED=YES", "-of", "VRT",
      "-r", "near", "S/GRANULE/L1C_T55/IMG_DATA/T55_B8A.jp2", "./mytmp/tmp_B8A_9.vrt"]) :: stBM8.calls }

/-- State after band B09 is resampled. -/
def stBM10 : FS :=
  { files := "./mytmp/tmp_B09_10.vrt" :: stBM9.files, tmpCounter := 11,
    calls := (GDALWARPCMD, ["-q", "-tr", "20", "20", "-co", "TILED=YES", "-of", "VRT",
      "-r", "near", "S/GRANULE/L1C_T55/IMG_DATA/T55_B09.jp2", "./mytmp/tmp_B09_10.vrt"]) :: stBM9.calls }

/-- State after band B10 is resampled. -/
def stBM11 : FS :=
  { files := "./mytmp/tmp_B10_11.vrt" :: stBM10.files, tmpCounter := 12,
    calls := (GDALWARPCMD, ["-q", "-tr", "20", "20", "-co", "TILED=YES", "-of", "VRT",
      "-r", "near", "S/GRANULE/L1C_T55/IMG_DATA/T55_B10.jp2", "./mytmp/tmp_B10_11.vrt"]) :: stBM10.calls }

/-- State after band B11 is resampled. -/
def stBM12 : FS :=
  { files := "./mytmp/tmp_B11_12.vrt" :: stBM11.files, tmpCounter := 13,
    calls := (GDALWARPCMD, ["-q", "-tr", "20", "20", "-co", "TILED=YES", "-of", "VRT",
      "-r", "near", "S/GRANULE/L1C_T55/IMG_DATA/T55_B11.jp2", "./mytmp/tmp_B11_12.vrt"]) :: stBM11.calls }

/-- State after band B12 is resampled. -/
def stBM13 : FS :=
  { files := "./mytmp/tmp_B12_13.vrt" :: stBM12.files, tmpCounter := 14,
    calls := (GDALWARPCMD, ["-q", "-tr", "20", "20", "-co", "TILED=YES", "-of", "VRT",
      "-r", "near", "S/GRANULE/L1C_T55/IMG_DATA/T55_B12.jp2", "./mytmp/tmp_B12_13.vrt"]) :: stBM12.calls }

/-- State after the stack is created and the merge tool has run. -/
def stMergeM : FS :=
  { files := "./mytmp/tmp_allbands_14.img" :: stBM13.files, tmpCounter := 15,
    calls := ("gdal_merge.py",
      ["-q", "-of", DEFAULTDRIVERNAME] ++ CMDLINECREATIONOPTIONS ++
        ["-separate", "-o", "./mytmp/tmp_allbands_14.img"] ++ bandsM) :: stBM13.calls }

theorem stackRunGood :
    ∃ s1, makeStackAndAngles extGood caW fsW = (Except.ok (caW2, bandsW), s1) ∧
      s1.tmpCounter = 15 ∧ "./tmp_allbands_14.img" ∈ s1.files ∧ "./angles_tmp_0.img" ∈ s1.files := by
  have h1 : resolveGranuleDir caW fsW = (Except.ok "S/GRANULE/L1C_T55", fsW) := by decide
  have h2 : findGranuleXml "S/GRANULE/L1C_T55" stAW =
      (Except.ok "S/GRANULE/L1C_T55/MTD_TL.xml", stAW) := by decide
  have hb1 : resampleOneBand extGood caMidW imgD "B01" stBW0 =
      (Except.ok "./tmp_B01_1.vrt", stBW1) :=
    @resampleOneBand_run extGood caMidW imgD "B01" stBW0
      "S/GRANULE/L1C_T55/IMG_DATA/T55_B01.jp2" (by decide)
  have hb2 : resampleOneBand extGood caMidW imgD "B02" stBW1 =
      (Except.ok "./tmp_B02_2.vrt", stBW2) :=
    @resampleOneBand_run extGood caMidW imgD "B02" stBW1
      "S/GRANULE/L1C_T55/IMG_DATA/T55_B02.jp2" (by decide)
  have hb3 : resampleOneBand extGood caMidW imgD "B03" stBW2 =
      (Except.ok "./tmp_B03_3.vrt", stBW3) :=
    @resampleOneBand_run extGood caMidW imgD "B03" stBW2
      "S/GRANULE/L1C_T55/IMG_DATA/T55_B03.jp2" (by decide)
  have hb4 : resampleOneBand extGood caMidW imgD "B04" stBW3 =
      (Except.ok "./tmp_B04_4.vrt", stBW4) :=
    @resampleOneBand_run extGood caMidW imgD "B04" stBW3
      "S/GRANULE/L1C_T55/IMG_DATA/T55_B04.jp2" (by decide)
  have hb5 : resampleOneBand extGood caMidW imgD "B05" stBW4 =
      (Except.ok "./tmp_B05_5.vrt", stBW5) :=
    @resampleOneBand_run extGood caMidW imgD "B05" stBW4
      "S/GRANULE/L1C_T55/IMG_DATA/T55_B05.jp2" (by decide)
  have hb6 : resampleOneBand extGood caMidW imgD "B06" stBW5 =
      (Except.ok "./tmp_B06_6.vrt", stBW6) :=
    @resampleOneBand_run extGood caMidW imgD "B06" stBW5
      "S/GRANULE/L1C_T55/IMG_DATA/T55_B06.jp2" (by decide)
  have hb7 : resampleOneBand extGood caMidW imgD "B07" stBW6 =
      (Except.ok "./tmp_B07_7.vrt", stBW7) :=
    @resampleOneBand_run extGood caMidW imgD "B07" stBW6
      "S/GRANULE/L1C_T55/IMG_DATA/T55_B07.jp2" (by decide)
  have hb8 : resampleOneBand extGood caMidW imgD "B08" stBW7 =
      (Except.ok "./tmp_B08_8.vrt", stBW8) :=
    @resampleOneBand_run extGood caMidW imgD "B08" stBW7
      "S/GRANULE/L1C_T55/IMG_DATA/T55_B08.jp2" (by decide)
  have hb9 : resampleOneBand extGood caMidW imgD "B8A" stBW8 =
      (Except.ok "./tmp_B8A_9.vrt", stBW9) :=
    @resampleOneBand_run extGood caMidW imgD "B8A" stBW8
      "S/GRANULE/L1C_T55/IMG_DATA/T55_B8A.jp2" (by decide)
  have hb10 : resampleOneBand extGood caMidW imgD "B09" stBW9 =
      (Except.ok "./tmp_B09_10.vrt", stBW10) :=
    @resampleOneBand_run extGood caMidW imgD "B09" stBW9
      "S/GRANULE/L1C_T55/IMG_DATA/T55_B09.jp2" (by decide)
  have hb11 : resampleOneBand extGood caMidW imgD "B10" stBW10 =
      (Except.ok "./tmp_B10_11.vrt", stBW11) :=
    @resampleOneBand_run extGood caMidW imgD "B10" stBW10
      "S/GRANULE/L1C_T55/IMG_DATA/T55_B10.jp2" (by decide)
  have hb12 : resampleOneBand extGood caMidW imgD "B11" stBW11 =
      (Except.ok "./tmp_B11_12.vrt", stBW12) :=
    @resampleOneBand_run extGood caMidW imgD "B11" stBW11
      "S/GRANULE/L1C_T55/IMG_DATA/T55_B11.jp2" (by decide)
  have hb13 : resampleOneBand extGood caMidW imgD "B12" stBW12 =
      (Except.ok "./tmp_B12_13.vrt", stBW13) :=
    @resampleOneBand_run extGood caMidW imgD "B12" stBW12
      "S/GRANULE/L1C_T55/IMG_DATA/T55_B12.jp2" (by decide)
  have hrb : resampleBands extGood caMidW imgD bandList stBW0 =
      (Except.ok bandsW, stBW13) :=
    resampleBands_cons_ok hb1 (resampleBands_cons_ok hb2 (resampleBands_cons_ok hb3 (resampleBands_cons_ok hb4 (resampleBands_cons_ok hb5 (resampleBands_cons_ok hb6 (resampleBands_cons_ok hb7 (resampleBands_cons_ok hb8 (resampleBands_cons_ok hb9 (resampleBands_cons_ok hb10 (resampleBands_cons_ok hb11 (resampleBands_cons_ok hb12 (resampleBands_cons_ok hb13 (resampleBands_nil extGood caMidW imgD stBW13)))))))))))))
  have h4 : removeAll bandsW stMergeW =
      (Except.ok (), (removeAll bandsW stMergeW).2) :=
    Prod.ext (removeAll_run bandsW stMergeW).1 rfl
  refine ⟨(removeAll bandsW stMergeW).2,
    makeStackAndAngles_run h1 h2 hrb h4, ?_, ?_, ?_⟩
  · rw [(removeAll_run bandsW stMergeW).2.1]; rfl
  · exact ((removeAll_run bandsW stMergeW).2.2.2 _).mpr ⟨by decide, by decide⟩
  · exact ((removeAll_run bandsW stMergeW).2.2.2 _).mpr ⟨by decide, by decide⟩

theorem stackRunFail :
    ∃ s1, makeStackAndAngles extFail caW fsW = (Except.ok (caW2, bandsW), s1) ∧
      s1.tmpCounter = 15 ∧ "./tmp_allbands_14.img" ∈ s1.files ∧ "./angles_tmp_0.img" ∈ s1.files := by
  have h1 : resolveGranuleDir caW fsW = (Except.ok "S/GRANULE/L1C_T55", fsW) := by decide
  have h2 : findGranuleXml "S/GRANULE/L1C_T55" stAW =
      (Except.ok "S/GRANULE/L1C_T55/MTD_TL.xml", stAW) := by decide
  have hb1 : resampleOneBand extFail caMidW imgD "B01" stBW0 =
      (Except.ok "./tmp_B01_1.vrt", stBW1) :=
    @resampleOneBand_run extFail caMidW imgD "B01" stBW0
      "S/GRANULE/L1C_T55/IMG_DATA/T55_B01.jp2" (by decide)
  have hb2 : resampleOneBand extFail caMidW imgD "B02" stBW1 =
      (Except.ok "./tmp_B02_2.vrt", stBW2) :=
    @resampleOneBand_run extFail caMidW imgD "B02" stBW1
      "S/GRANULE/L1C_T55/IMG_DATA/T55_B02.jp2" (by decide)
  have hb3 : resampleOneBand extFail caMidW imgD "B03" stBW2 =
      (Except.ok "./tmp_B03_3.vrt", stBW3) :=
    @resampleOneBand_run extFail caMidW imgD "B03" stBW2
      "S/GRANULE/L1C_T55/IMG_DATA/T55_B03.jp2" (by decide)
  have hb4 : resampleOneBand extFail caMidW imgD "B04" stBW3 =
      (Except.ok "./tmp_B04_4.vrt", stBW4) :=
    @resampleOneBand_run extFail caMidW imgD "B04" stBW3
      "S/GRANULE/L1C_T55/IMG_DATA/T55_B04.jp2" (by decide)
  have hb5 : resampleOneBand extFail caMidW imgD "B05" stBW4 =
      (Except.ok "./tmp_B05_5.vrt", stBW5) :=
    @resampleOneBand_run extFail caMidW imgD "B05" stBW4
      "S/GRANULE/L1C_T55/IMG_DATA/T55_B05.jp2" (by decide)
  have hb6 : resampleOneBand extFail caMidW imgD "B06" stBW5 =
      (Except.ok "./tmp_B06_6.vrt", stBW6) :=
    @resampleOneBand_run extFail caMidW imgD "B06" stBW5
      "S/GRANULE/L1C_T55/IMG_DATA/T55_B06.jp2" (by decide)
  have hb7 : resampleOneBand extFail caMidW imgD "B07" stBW6 =
      (Except.ok "./tmp_B07_7.vrt", stBW7) :=
    @resampleOneBand_run extFail caMidW imgD "B07" stBW6
      "S/GRANULE/L1C_T55/IMG_DATA/T55_B07.jp2" (by decide)
  have hb8 : resampleOneBand extFail caMidW imgD "B08" stBW7 =
      (Except.ok "./tmp_B08_8.vrt", stBW8) :=
    @resampleOneBand_run extFail caMidW imgD "B08" stBW7
      "S/GRANULE/L1C_T55/IMG_DATA/T55_B08.jp2" (by decide)
  have hb9 : resampleOneBand extFail caMidW imgD "B8A" stBW8 =
      (Except.ok "./tmp_B8A_9.vrt", stBW9) :=
    @resampleOneBand_run extFail caMidW imgD "B8A" stBW8
      "S/GRANULE/L1C_T55/IMG_DATA/T55_B8A.jp2" (by decide)
  have hb10 : resampleOneBand extFail caMidW imgD "B09" stBW9 =
      (Except.ok "./tmp_B09_10.vrt", stBW10) :=
    @resampleOneBand_run extFail caMidW imgD "B09" stBW9
      "S/GRANULE/L1C_T55/IMG_DATA/T55_B09.jp2" (by decide)
  have hb11 : resampleOneBand extFail caMidW imgD "B10" stBW10 =
      (Except.ok "./tmp_B10_11.vrt", stBW11) :=
    @resampleOneBand_run extFail caMidW imgD "B10" stBW10
      "S/GRANULE/L1C_T55/IMG_DATA/T55_B10.jp2" (by decide)
  have hb12 : resampleOneBand extFail caMidW imgD "B11" stBW11 =
      (Except.ok "./tmp_B11_12.vrt", stBW12) :=
    @resampleOneBand_run extFail caMidW imgD "B11" stBW11
      "S/GRANULE/L1C_T55/IMG_DATA/T55_B11.jp2" (by decide)
  have hb13 : resampleOneBand extFail caMidW imgD "B12" stBW12 =
      (Except.ok "./tmp_B12_13.vrt", stBW13) :=
    @resampleOneBand_run extFail caMidW imgD "B12" stBW12
      "S/GRANULE/L1C_T55/IMG_DATA/T55_B12.jp2" (by decide)
  have hrb : resampleBands extFail caMidW imgD bandList stBW0 =
      (Except.ok bandsW, stBW13) :=
    resampleBands_cons_ok hb1 (resampleBands_cons_ok hb2 (resampleBands_cons_ok hb3 (resampleBands_cons_ok hb4 (resampleBands_cons_ok hb5 (resampleBands_cons_ok hb6 (resampleBands_cons_ok hb7 (resampleBands_cons_ok hb8 (resampleBands_cons_ok hb9 (resampleBands_cons_ok hb10 (resampleBands_cons_ok hb11 (resampleBands_cons_ok hb12 (resampleBands_cons_ok hb13 (resampleBands_nil extFail caMidW imgD stBW13)))))))))))))
  have h4 : removeAll bandsW stMergeW =
      (Except.ok (), (removeAll bandsW stMergeW).2) :=
    Prod.ext (removeAll_run bandsW stMergeW).1 rfl
  refine ⟨(removeAll bandsW stMergeW).2,
    makeStackAndAngles_run h1 h2 hrb h4, ?_, ?_, ?_⟩
  · rw [(removeAll_run bandsW stMergeW).2.1]; rfl
  · exact ((removeAll_run bandsW stMergeW).2.2.2 _).mpr ⟨by decide, by decide⟩
  · exact ((removeAll_run bandsW stMergeW).2.2.2 _).mpr ⟨by decide, by decide⟩

theorem stackRunMm :
    ∃ s1, makeStackAndAngles extMM caMM fsW = (Except.ok (caMM2, bandsM), s1) ∧
      s1.tmpCounter = 15 ∧ "./mytmp/tmp_allbands_14.img" ∈ s1.files ∧ "./mytmp/angles_tmp_0.img" ∈ s1.files := by
  have h1 : resolveGranuleDir caMM fsW = (Except.ok "S/GRANULE/L1C_T55", fsW) := by decide
  have h2 : findGranuleXml "S/GRANULE/L1C_T55" stAM =
      (Except.ok "S/GRANULE/L1C_T55/MTD_TL.xml", stAM) := by decide
  have hb1 : resampleOneBand extMM caMidM imgD "B01" stBM0 =
      (Except.ok "./mytmp/tmp_B01_1.vrt", stBM1) :=
    @resampleOneBand_run extMM caMidM imgD "B01" stBM0
      "S/GRANULE/L1C_T55/IMG_DATA/T55_B01.jp2" (by decide)
  have hb2 : resampleOneBand extMM caMidM imgD "B02" stBM1 =
      (Except.ok "./mytmp/tmp_B02_2.vrt", stBM2) :=
    @resampleOneBand_run extMM caMidM imgD "B02" stBM1
      "S/GRANULE/L1C_T55/IMG_DATA/T55_B02.jp2" (by decide)
  have hb3 : resampleOneBand extMM caMidM imgD "B03" stBM2 =
      (Except.ok "./mytmp/tmp_B03_3.vrt", stBM3) :=
    @resampleOneBand_run extMM caMidM imgD "B03" stBM2
      "S/GRANULE/L1C_T55/IMG_DATA/T55_B03.jp2" (by decide)
  have hb4 : resampleOneBand extMM caMidM imgD "B04" stBM3 =
      (Except.ok "./mytmp/tmp_B04_4.vrt", stBM4) :=
    @resampleOneBand_run extMM caMidM imgD "B04" stBM3
      "S/GRANULE/L1C_T55/IMG_DATA/T55_B04.jp2" (by decide)
  have hb5 : resampleOneBand extMM caMidM imgD "B05" stBM4 =
      (Except.ok "./mytmp/tmp_B05_5.vrt", stBM5) :=
    @resampleOneBand_run extMM caMidM imgD "B05" stBM4
      "S/GRANULE/L1C_T55/IMG_DATA/T55_B05.jp2" (by decide)
  have hb6 : resampleOneBand extMM caMidM imgD "B06" stBM5 =
      (Except.ok "./mytmp/tmp_B06_6.vrt", stBM6) :=
    @resampleOneBand_run extMM caMidM imgD "B06" stBM5
      "S/GRANULE/L1C_T55/IMG_DATA/T55_B06.jp2" (by decide)
  have hb7 : resampleOneBand extMM caMidM imgD "B07" stBM6 =
      (Except.ok "./mytmp/tmp_B07_7.vrt", stBM7) :=
    @resampleOneBand_run extMM caMidM imgD "B07" stBM6
      "S/GRANULE/L1C_T55/IMG_DATA/T55_B07.jp2" (by decide)
  have hb8 : resampleOneBand extMM caMidM imgD "B08" stBM7 =
      (Except.ok "./mytmp/tmp_B08_8.vrt", stBM8) :=
    @resampleOneBand_run extMM caMidM imgD "B08" stBM7
      "S/GRANULE/L1C_T55/IMG_DATA/T55_B08.jp2" (by decide)
  have hb9 : resampleOneBand extMM caMidM imgD "B8A" stBM8 =
      (Except.ok "./mytmp/tmp_B8A_9.vrt", stBM9) :=
    @resampleOneBand_run extMM caMidM imgD "B8A" stBM8
      "S/GRANULE/L1C_T55/IMG_DATA/T55_B8A.jp2" (by decide)
  have hb10 : resampleOneBand extMM caMidM imgD "B09" stBM9 =
      (Except.ok "./mytmp/tmp_B09_10.vrt", stBM10) :=
    @resampleOneBand_run extMM caMidM imgD "B09" stBM9
      "S/GRANULE/L1C_T55/IMG_DATA/T55_B09.jp2" (by decide)
  have hb11 : resampleOneBand extMM caMidM imgD "B10" stBM10 =
      (Except.ok "./mytmp/tmp_B10_11.vrt", stBM11) :=
    @resampleOneBand_run extMM caMidM imgD "B10" stBM10
      "S/GRANULE/L1C_T55/IMG_DATA/T55_B10.jp2" (by decide)
  have hb12 : resampleOneBand extMM caMidM imgD "B11" stBM11 =
      (Except.ok "./mytmp/tmp_B11_12.vrt", stBM12) :=
    @resampleOneBand_run extMM caMidM imgD "B11" stBM11
      "S/GRANULE/L1C_T55/IMG_DATA/T55_B11.jp2" (by decide)
  have hb13 : resampleOneBand extMM caMidM imgD "B12" stBM12 =
      (Except.ok "./mytmp/tmp_B12_13.vrt", stBM13) :=
    @resampleOneBand_run extMM caMidM imgD "B12" stBM12
      "S/GRANULE/L1C_T55/IMG_DATA/T55_B12.jp2" (by decide)
  have hrb : resampleBands extMM caMidM imgD bandList stBM0 =
      (Except.ok bandsM, stBM13) :=
    resampleBands_cons_ok hb1 (resampleBands_cons_ok hb2 (resampleBands_cons_ok hb3 (resampleBands_cons_ok hb4 (resampleBands_cons_ok hb5 (resampleBands_cons_ok hb6 (resampleBands_cons_ok hb7 (resampleBands_cons_ok hb8 (resampleBands_cons_ok hb9 (resampleBands_cons_ok hb10 (resampleBands_cons_ok hb11 (resampleBands_cons_ok hb12 (resampleBands_cons_ok hb13 (resampleBands_nil extMM caMidM imgD stBM13)))))))))))))
  have h4 : removeAll bandsM stMergeM =
      (Except.ok (), (removeAll bandsM stMergeM).2) :=
    Prod.ext (removeAll_run bandsM stMergeM).1 rfl
  refine ⟨(removeAll bandsM stMergeM).2,
    makeStackAndAngles_run h1 h2 hrb h4, ?_, ?_, ?_⟩
  · rw [(removeAll_run bandsM stMergeM).2.1]; rfl
  · exact ((removeAll_run bandsM stMergeM).2.2.2 _).mpr ⟨by decide, by decide⟩
  · exact ((removeAll_run bandsM stMergeM).2.2.2 _).mpr ⟨by decide, by decide⟩

/-! ### Claim theorems -/

/-- C1: for every output pixel size and every input band image,
chooseResampleMethod returns near iff the output size equals the input x
pixel size, average iff the output size is strictly greater, and cubic iff
it is strictly smaller; by trichotomy of the rational order these three
cases partition all pairs with no gaps, and the function examines one band
image at a time. -/
theorem C1_resample_policy_partition (ext : Ext) (outpixsize : ℚ) (inBandImg : String) :
    (chooseResampleMethod ext outpixsize inBandImg = "near" ↔
      outpixsize = (ext.imageInfo inBandImg).xRes) ∧
    (chooseResampleMethod ext outpixsize inBandImg = "average" ↔
      outpixsize > (ext.imageInfo inBandImg).xRes) ∧
    (chooseResampleMethod ext outpixsize inBandImg = "cubic" ↔
      outpixsize < (ext.imageInfo inBandImg).xRes) := by
  simp only [chooseResampleMethod]
  rcases lt_trichotomy outpixsize (ext.imageInfo inBandImg).xRes with hlt | heq | hgt
  · rw [if_neg hlt.ne, if_neg (by exact fun hc => absurd hc (lt_asymm hlt))]
    exact ⟨⟨fun hc => absurd hc (by decide), fun hc => absurd hc hlt.ne⟩,
      ⟨fun hc => absurd hc (by decide), fun hc => absurd hc (lt_asymm hlt)⟩,
      ⟨fun _ => hlt, fun _ => rfl⟩⟩
  · rw [if_pos heq]
    exact ⟨⟨fun _ => heq, fun _ => rfl⟩,
      ⟨fun hc => absurd hc (by decide), fun hc => absurd (heq ▸ hc) (lt_irrefl _)⟩,
      ⟨fun hc => absurd hc (by decide), fun hc => absurd (heq ▸ hc) (lt_irrefl _)⟩⟩
  · rw [if_neg (ne_of_gt hgt), if_pos hgt]
    exact ⟨⟨fun hc => absurd hc (by decide), fun hc => absurd hc (ne_of_gt hgt)⟩,
      ⟨fun _ => hgt, fun _ => rfl⟩,
      ⟨fun hc => absurd hc (by decide), fun hc => absurd hc (lt_asymm hgt)⟩⟩

/-- Witness for C1: the scenario of the spec with bands at 10, 20 and 60 m
native size and a requested 20 m output. -/
theorem C1_witness :
    chooseResampleMethod extBands 20 "b10.jp2" = "average" ∧
    chooseResampleMethod extBands 20 "b20.jp2" = "near" ∧
    chooseResampleMethod extBands 20 "b60.jp2" = "cubic" :=
  ⟨(C1_resample_policy_partition extBands 20 "b10.jp2").2.1.mpr (by decide),
   (C1_resample_policy_partition extBands 20 "b20.jp2").1.mpr (by decide),
   (C1_resample_policy_partition extBands 20 "b60.jp2").2.2.mpr (by decide)⟩

/-- C10: the resample method depends only on the x pixel size of the input:
two inputs with equal x resolution always get the same method, and an input
whose x resolution equals the requested output size gets near, without the
y resolution ever being examined. -/
theorem C10_resample_ignores_yRes (ext : Ext) (outpixsize : ℚ) (img1 img2 : String)
    (h : (ext.imageInfo img1).xRes = (ext.imageInfo img2).xRes) :
    chooseResampleMethod ext outpixsize img1 = chooseResampleMethod ext outpixsize img2 ∧
    ((ext.imageInfo img1).xRes = outpixsize →
      chooseResampleMethod ext outpixsize img1 = "near") := by
  constructor
  · simp only [chooseResampleMethod, h]
  · intro hx
    simp only [chooseResampleMethod, if_pos hx.symm]

/-- Witness for C10: two rasters with x size 20 and y sizes 10 and 60 get
the same method, and the first is assigned near although its y size differs
from the 20 m output. -/
theorem C10_witness :
    chooseResampleMethod extYdiff 20 "a.jp2" = chooseResampleMethod extYdiff 20 "b.jp2" ∧
    chooseResampleMethod extYdiff 20 "a.jp2" = "near" ∧
    (extYdiff.imageInfo "a.jp2").yRes ≠ (extYdiff.imageInfo "b.jp2").yRes ∧
    (extYdiff.imageInfo "a.jp2").yRes ≠ 20 := by
  have h := C10_resample_ignores_yRes extYdiff 20 "a.jp2" "b.jp2" (by decide)
  exact ⟨h.1, h.2 (by decide), by decide, by decide⟩

/-- C3: angle-grid reconciliation is idempotent on matching grids: when the
x and y pixel sizes of the angles file both equal those of the TOA file,
checkAnglesFile returns the input path unchanged with an untouched state
(no derivative is created, so the later derivative cleanup, guarded by the
returned path differing from the input path, does not touch it); when either
axis differs it creates a VRT in the process temp directory, invokes gdalwarp
with nearest-neighbour resampling onto the TOA pixel size and extent, and
returns that derivative path. -/
theorem C3_reconcile_idempotent (ext : Ext) (inputAnglesFile toafile : String) (s : FS) :
    (((ext.imageInfo toafile).xRes = (ext.imageInfo inputAnglesFile).xRes ∧
      (ext.imageInfo toafile).yRes = (ext.imageInfo inputAnglesFile).yRes) →
      checkAnglesFile ext inputAnglesFile toafile s = (Except.ok inputAnglesFile, s)) ∧
    (((ext.imageInfo toafile).xRes ≠ (ext.imageInfo inputAnglesFile).xRes ∨
      (ext.imageInfo toafile).yRes ≠ (ext.imageInfo inputAnglesFile).yRes) →
      checkAnglesFile ext inputAnglesFile toafile s =
        (Except.ok (mkname sysTempDir "angles" ".vrt" s.tmpCounter),
         { files := mkname sysTempDir "angles" ".vrt" s.tmpCounter :: s.files,
           tmpCounter := s.tmpCounter + 1,
           calls := (GDALWARPCMD, ["-q", "-of", "VRT", "-tr",
              toString (ext.imageInfo toafile).xRes, toString (ext.imageInfo toafile).yRes,
              "-te", toString (ext.imageInfo toafile).xMin,
              toString (ext.imageInfo toafile).yMin,
              toString (ext.imageInfo toafile).xMax,
              toString (ext.imageInfo toafile).yMax,
              "-r", "near", inputAnglesFile,
              mkname sysTempDir "angles" ".vrt" s.tmpCounter]) :: s.calls })) :=
  ⟨fun h => checkAnglesFile_run_eq ext inputAnglesFile toafile s h.1 h.2,
   fun h => checkAnglesFile_run_ne ext inputAnglesFile toafile s h⟩

/-- Witness for C3: a matching-grid reconciliation returning the input
unchanged, and a mismatching one returning the generated VRT path. -/
theorem C3_witness :
    checkAnglesFile extGood "a.img" "t.img" fsW = (Except.ok "a.img", fsW) ∧
    (checkAnglesFile extMM "./mytmp/angles_tmp_0.img" "t.img" fsW).1 =
      Except.ok "/tmp/angles0.vrt" := by
  constructor
  · exact (C3_reconcile_idempotent extGood "a.img" "t.img" fsW).1 ⟨rfl, rfl⟩
  · rw [(C3_reconcile_idempotent extMM "./mytmp/angles_tmp_0.img" "t.img" fsW).2 (by decide)]
    rfl

/-- C4: granule discovery is total over match counts: exactly one match is
returned with the state untouched; zero matches fail with the message naming
the search pattern; two or more matches fail with a message listing every
candidate path (comma separated); and when discovery fails,
makeStackAndAngles propagates the same error with the state untouched, so no
angle computation, resampling, or filesystem write happens. -/
theorem C4_granule_discovery (safedir : String) (s : FS) :
    (∀ d, s.files.filter
        (fun f => globMatch (safedir ++ "/GRANULE/L1C_*").toList f.toList) = [d] →
      findGranuleDir safedir s = (Except.ok d, s)) ∧
    (s.files.filter
        (fun f => globMatch (safedir ++ "/GRANULE/L1C_*").toList f.toList) = [] →
      findGranuleDir safedir s = (Except.error (FmaskError.fileError
        ("Unable to find GRANULE sub-directory " ++ (safedir ++ "/GRANULE/L1C_*"))), s)) ∧
    (∀ lst, s.files.filter
        (fun f => globMatch (safedir ++ "/GRANULE/L1C_*").toList f.toList) = lst →
      lst.length > 1 →
      findGranuleDir safedir s = (Except.error (FmaskError.fileError
        ("Found multiple GRANULE sub-directories: " ++ String.intercalate "," lst)), s)) ∧
    (∀ (ext : Ext) (ca : CmdArgs) (e : FmaskError),
      ca.granuledir = none → ca.safedir = some safedir →
      findGranuleDir safedir s = (Except.error e, s) →
      makeStackAndAngles ext ca s = (Except.error e, s)) := by
  refine ⟨fun d hd => findGranuleDir_one hd, fun h0 => findGranuleDir_zero h0,
    fun lst hl hlen => findGranuleDir_many hl hlen, ?_⟩
  intro ext ca e hgd hsd herr
  have hres : resolveGranuleDir ca s = (Except.error e, s) := by
    unfold resolveGranuleDir
    rw [hgd, hsd]
    exact herr
  unfold makeStackAndAngles
  simp only [bind_def]
  rw [mBind_err hres]

/-- Witness for C4: one granule is found deterministically; an empty GRANULE
collection and a two-granule collection fail, the latter listing both paths;
and on the two-granule archive makeStackAndAngles aborts with the same error
and an untouched filesystem. -/
theorem C4_witness :
    findGranuleDir "S" fsW = (Except.ok "S/GRANULE/L1C_T55", fsW) ∧
    findGranuleDir "S" fsNoGranule = (Except.error (FmaskError.fileError
      "Unable to find GRANULE sub-directory S/GRANULE/L1C_*"), fsNoGranule) ∧
    findGranuleDir "S" fsTwoGranules = (Except.error (FmaskError.fileError
      "Found multiple GRANULE sub-directories: S/GRANULE/L1C_T55,S/GRANULE/L1C_T77"),
      fsTwoGranules) ∧
    makeStackAndAngles extGood caW fsTwoGranules = (Except.error (FmaskError.fileError
      "Found multiple GRANULE sub-directories: S/GRANULE/L1C_T55,S/GRANULE/L1C_T77"),
      fsTwoGranules) := by
  obtain ⟨h1, h2, h3, h4⟩ := C4_granule_discovery "S" fsTwoGranules
  obtain ⟨g1, g2, g3, g4⟩ := C4_granule_discovery "S" fsW
  obtain ⟨k1, k2, k3, k4⟩ := C4_granule_discovery "S" fsNoGranule
  have hma := h3 ["S/GRANULE/L1C_T55", "S/GRANULE/L1C_T77"] (by decide) (by decide)
  refine ⟨g1 "S/GRANULE/L1C_T55" (by decide), k2 (by decide), hma, ?_⟩
  exact h4 extGood caW _ rfl rfl hma

/-- C5 (amended): whenever the band glob over the filesystem (which by then
also holds the just-created temp VRT for the band) yields zero or several
matches, the band resampler fails with the error message naming the band;
the message is the same fixed text in both cases, carrying no extra
multiple-matches detail, and only the pre-created empty temp VRT has been
added to the state. -/
theorem C5_band_locate_failure (ext : Ext) (cmdargs : CmdArgs) (imgDir band : String)
    (s : FS)
    (h : ((mkname cmdargs.tempdir ("tmp_" ++ band ++ "_") ".vrt" s.tmpCounter ::
        s.files).filter
        (fun f => globMatch (imgDir ++ "/*_" ++ band ++ ".jp2").toList f.toList)).length ≠ 1) :
    resampleOneBand ext cmdargs imgDir band s =
      (Except.error (FmaskError.fileError ("Cannot find input band " ++ band)),
       { files := mkname cmdargs.tempdir ("tmp_" ++ band ++ "_") ".vrt" s.tmpCounter ::
           s.files,
         tmpCounter := s.tmpCounter + 1,
         calls := s.calls }) :=
  resampleOneBand_err h

/-- Witness for C5: the duplicate-B02 archive drives the resampler for band
B02 into the failure, with the fixed error message. -/
theorem C5_witness :
    resampleOneBand extGood caW "S/GRANULE/L1C_T55/IMG_DATA" "B02" fsDup =
      (Except.error (FmaskError.fileError "Cannot find input band B02"),
       { files := "./tmp_B02_0.vrt" :: fsDup.files,
         tmpCounter := 1,
         calls := [] }) :=
  C5_band_locate_failure extGood caW "S/GRANULE/L1C_T55/IMG_DATA" "B02" fsDup (by decide)

/-- Counterexample for C5 as stated: on an archive holding two files matching
the B02 pattern, the pipeline fails with the plain message naming the band;
the message carries no multiple-matches detail, and no stack is produced
(no path containing allbands exists afterwards and the merge tool is never
invoked). -/
theorem C5_counterexample :
    (makeStackAndAngles extGood caW fsDup).1 =
      Except.error (FmaskError.fileError "Cannot find input band B02") ∧
    hasInfix "multiple".toList "Cannot find input band B02".toList = false ∧
    ((makeStackAndAngles extGood caW fsDup).2.files.all
      (fun f => !(hasInfix "allbands".toList f.toList))) = true ∧
    ((makeStackAndAngles extGood caW fsDup).2.calls.all
      (fun c => c.1 ≠ "gdal_merge.py")) = true := by
  decide

/-- C7: metadata discovery prefers the canonical MTD_TL.xml name and uses it
whenever it exists; only when it is absent does it fall back to a glob over
*.xml in the granule directory, succeeding exactly when that glob has one
match and otherwise failing with an error naming the canonical file it could
not find. -/
theorem C7_metadata_discovery (granuleDir : String) (s : FS) :
    ((granuleDir ++ "/MTD_TL.xml") ∈ s.files →
      findGranuleXml granuleDir s = (Except.ok (granuleDir ++ "/MTD_TL.xml"), s)) ∧
    ((granuleDir ++ "/MTD_TL.xml") ∉ s.files →
      ∀ x, s.files.filter
          (fun f => globMatch (granuleDir ++ "/*.xml").toList f.toList) = [x] →
        findGranuleXml granuleDir s = (Except.ok x, s)) ∧
    ((granuleDir ++ "/MTD_TL.xml") ∉ s.files →
      ∀ lst, s.files.filter
          (fun f => globMatch (granuleDir ++ "/*.xml").toList f.toList) = lst →
        lst.length ≠ 1 →
        findGranuleXml granuleDir s = (Except.error (FmaskError.fileError
          ("Unable to find XML file " ++ (granuleDir ++ "/MTD_TL.xml"))), s)) :=
  ⟨fun h => findGranuleXml_canonical h,
   fun h x hx => findGranuleXml_fallback_one h hx,
   fun h lst hl hn => findGranuleXml_fallback_bad h hl hn⟩

/-- Witness for C7: the canonical file is used on the standard archive; a
granule directory with only a non-canonical XML resolves it through the
fallback glob; a directory with no XML at all fails naming the canonical
path. -/
theorem C7_witness :
    findGranuleXml "S/GRANULE/L1C_T55" fsW =
      (Except.ok "S/GRANULE/L1C_T55/MTD_TL.xml", fsW) ∧
    findGranuleXml "G" fsXmlOnly = (Except.ok "G/tile_metadata.xml", fsXmlOnly) ∧
    findGranuleXml "G" fsNoGranule = (Except.error (FmaskError.fileError
      "Unable to find XML file G/MTD_TL.xml"), fsNoGranule) := by
  obtain ⟨h1, _, _⟩ := C7_metadata_discovery "S/GRANULE/L1C_T55" fsW
  obtain ⟨_, h2, _⟩ := C7_metadata_discovery "G" fsXmlOnly
  obtain ⟨_, _, h3⟩ := C7_metadata_discovery "G" fsNoGranule
  exact ⟨h1 (by decide), h2 (by decide) "G/tile_metadata.xml" (by decide),
    h3 (by decide) [] (by decide) (by decide)⟩

/-! ### Reduction lemmas for mainRoutine -/

theorem mBind_assoc {α β γ : Type} (m : M α) (f : α → M β) (g : β → M γ) :
    mBind (mBind m f) g = mBind m (fun a => mBind (f a) g) := by
  funext s
  unfold mBind
  rcases hms : m s with ⟨r, s1⟩
  cases r <;> rfl

theorem mPure_bind {α β : Type} (a : α) (f : α → M β) : mBind (mPure a) f = f a := rfl

theorem osRemove_run (p : String) (s : FS) :
    osRemove p s = (Except.ok (),
      { files := s.files.filter (fun f => f ≠ p),
        tmpCounter := s.tmpCounter, calls := s.calls }) := rfl

theorem removeIfExists_eq (fn : String) (s : FS) :
    removeIfExists fn s = (Except.ok (), (removeIfExists fn s).2) :=
  Prod.ext (removeIfExists_run fn s).1 rfl

theorem img_not_in_genBandNames (d1 p1 : String) (c1 : Nat) (d : String) (c : Nat)
    (l : List String) : mkname d1 p1 ".img" c1 ∉ genBandNames d c l := by
  intro hmem
  obtain ⟨b, c2, hb⟩ := genBandNames_mem hmem
  exact mkname_img_ne_vrt d1 p1 c1 d ("tmp_" ++ b ++ "_") c2 hb

theorem mainRoutine_built {ext : Ext} {ca ca' : CmdArgs} {bands : List String} {s s1 : FS}
    (hmode : (ca.safedir.isSome || ca.granuledir.isSome) = true)
    (hmk : makeStackAndAngles ext ca s = (Except.ok (ca', bands), s1)) :
    mainRoutine ext ca s = mainTail ext ca' true s1 := by
  unfold mainRoutine
  simp only [bind_def, pure_def]
  rw [if_pos hmode, mBind_ok hmk]
  rfl

theorem mainRoutine_direct {ca : CmdArgs} (ext : Ext) (s : FS)
    (hs : ca.safedir = none) (hg : ca.granuledir = none) :
    mainRoutine ext ca s = mainTail ext ca false s := by
  unfold mainRoutine
  simp only [bind_def, pure_def]
  have hcond : (ca.safedir.isSome || ca.granuledir.isSome) = false := by
    rw [hs, hg]
    rfl
  rw [if_neg (by simp [hcond])]
  rfl

/-- When the detection algorithm fails, the tail of the pipeline surfaces the
error with no file removal at all: the final state still holds every file
that existed before, plus anything the reconciliation step created. -/
theorem mainTail_fail {ext : Ext} (hfail : ext.detectOk = false)
    (ca : CmdArgs) (ts : Bool) (s : FS) :
    ∃ s2, mainTail ext ca ts s =
        (Except.error (FmaskError.fileError "fmask processing error"), s2) ∧
      ∀ f ∈ s.files, f ∈ s2.files := by
  unfold mainTail
  simp only [bind_def]
  by_cases hc : (ext.imageInfo (optStr ca.toa)).xRes ≠
      (ext.imageInfo (optStr ca.anglesfile)).xRes ∨
      (ext.imageInfo (optStr ca.toa)).yRes ≠ (ext.imageInfo (optStr ca.anglesfile)).yRes
  · rw [mBind_ok (checkAnglesFile_run_ne ext _ _ s hc)]
    rw [mBind_err (doFmask_run_fail hfail _ _ _ _ _ _)]
    exact ⟨_, rfl, fun f hf => List.mem_cons_of_mem _ hf⟩
  · push_neg at hc
    rw [mBind_ok (checkAnglesFile_run_eq ext _ _ s hc.1 hc.2)]
    rw [mBind_err (doFmask_run_fail hfail _ _ _ _ _ _)]
    exact ⟨s, rfl, fun _ hf => hf⟩

/-- C2 (amended): cleanup is executed only on the success path.  If the
detection algorithm fails after the stack and angles have been built, the
pipeline surfaces the error without any cleanup: the temporary stack and the
computed angles file are still on disk in the final state. -/
theorem C2_no_cleanup_on_failure (ext : Ext) (ca ca' : CmdArgs) (bands : List String)
    (s s1 : FS)
    (hfail : ext.detectOk = false)
    (hmode : (ca.safedir.isSome || ca.granuledir.isSome) = true)
    (hmk : makeStackAndAngles ext ca s = (Except.ok (ca', bands), s1)) :
    ∃ s2, mainRoutine ext ca s =
        (Except.error (FmaskError.fileError "fmask processing error"), s2) ∧
      optStr ca'.toa ∈ s2.files ∧ optStr ca'.anglesfile ∈ s2.files := by
  obtain ⟨_, hang, htoa, hbands, _, _, hfiles⟩ := makeStackAndAngles_ok_spec hmk
  obtain ⟨s2, htail, hsub⟩ := mainTail_fail hfail ca' true s1
  have htoa1 : optStr ca'.toa ∈ s1.files := by
    rw [htoa, optStr]
    refine (hfiles _).mpr ⟨Or.inl rfl, ?_⟩
    rw [hbands]
    exact img_not_in_genBandNames _ _ _ _ _ _
  have hang1 : optStr ca'.anglesfile ∈ s1.files := by
    rw [hang, optStr]
    refine (hfiles _).mpr ⟨Or.inr (Or.inl rfl), ?_⟩
    rw [hbands]
    exact img_not_in_genBandNames _ _ _ _ _ _
  exact ⟨s2, by rw [mainRoutine_built hmode hmk, htail],
    hsub _ htoa1, hsub _ hang1⟩

/-- Witness for C2 (amended): on the standard archive with a failing
detection stage, the run ends in the error with the stack and angles files
still present. -/
theorem C2_witness :
    ∃ s2, mainRoutine extFail caW fsW =
        (Except.error (FmaskError.fileError "fmask processing error"), s2) ∧
      "./tmp_allbands_14.img" ∈ s2.files ∧ "./angles_tmp_0.img" ∈ s2.files := by
  obtain ⟨s1, hmk, _, _, _⟩ := stackRunFail
  obtain ⟨s2, hrun, htoa, hang⟩ :=
    C2_no_cleanup_on_failure extFail caW caW2 bandsW fsW s1 rfl rfl hmk
  exact ⟨s2, hrun, htoa, hang⟩

/-- Counterexample for C2 as stated: a concrete run in which the detection
stage fails ends with the error raised while the temporary stack
./tmp_allbands_14.img and the computed angles file ./angles_tmp_0.img are
left on disk, so the orchestrator did not clean them up before surfacing the
error. -/
theorem C2_counterexample :
    (mainRoutine extFail caW fsW).1 =
      Except.error (FmaskError.fileError "fmask processing error") ∧
    "./tmp_allbands_14.img" ∈ (mainRoutine extFail caW fsW).2.files ∧
    "./angles_tmp_0.img" ∈ (mainRoutine extFail caW fsW).2.files := by
  obtain ⟨s1, hmk, _, htoa1, hang1⟩ := stackRunFail
  obtain ⟨s2, htail, hsub⟩ := @mainTail_fail extFail rfl caW2 true s1
  have hrun : mainRoutine extFail caW fsW =
      (Except.error (FmaskError.fileError "fmask processing error"), s2) := by
    rw [mainRoutine_built (by decide) hmk, htail]
  rw [hrun]
  exact ⟨rfl, hsub _ htoa1, hsub _ hang1⟩

/-! ### Successful runs of the pipeline tail, by branch -/

theorem mainTail_run_ne_clean {ext : Ext} (hdet : ext.detectOk = true) (ca : CmdArgs)
    (ts : Bool) (s : FS)
    (hc : (ext.imageInfo (optStr ca.toa)).xRes ≠ (ext.imageInfo (optStr ca.anglesfile)).xRes ∨
      (ext.imageInfo (optStr ca.toa)).yRes ≠ (ext.imageInfo (optStr ca.anglesfile)).yRes)
    (hvrt : mkname sysTempDir "angles" ".vrt" s.tmpCounter ≠ optStr ca.anglesfile)
    (hb : (ts && !ca.keepintermediates) = true) :
    ∃ s2, mainTail ext ca ts s = (Except.ok (), s2) ∧
      (∃ pre, s2.calls = pre ++
        ((GDALWARPCMD, ["-q", "-of", "VRT", "-tr",
          toString (ext.imageInfo (optStr ca.toa)).xRes,
          toString (ext.imageInfo (optStr ca.toa)).yRes,
          "-te", toString (ext.imageInfo (optStr ca.toa)).xMin,
          toString (ext.imageInfo (optStr ca.toa)).yMin,
          toString (ext.imageInfo (optStr ca.toa)).xMax,
          toString (ext.imageInfo (optStr ca.toa)).yMax,
          "-r", "near", optStr ca.anglesfile,
          mkname sysTempDir "angles" ".vrt" s.tmpCounter]) :: s.calls)) ∧
      (∀ f, f ∈ s2.files ↔
        (f = ca.output ∨ f ∈ s.files) ∧
        f ≠ mkname sysTempDir "angles" ".vrt" s.tmpCounter ∧
        f ≠ optStr ca.toa ∧ f ≠ optStr ca.anglesfile) := by
  unfold mainTail
  simp only [bind_def]
  rw [mBind_ok (checkAnglesFile_run_ne ext _ _ s hc)]
  try dsimp only
  rw [mBind_ok (doFmask_run_ok hdet _ _ _ _ _ _)]
  try dsimp only
  rw [if_pos hvrt]
  rw [mBind_ok (osRemove_run _ _)]
  try dsimp only
  simp only [hb]
  rw [if_pos trivial]
  rw [mBind_ok (removeIfExists_eq _ _)]
  refine ⟨_, removeIfExists_eq _ _, ?_, ?_⟩
  · refine ⟨[("doFmask", [optStr ca.toa, mkname sysTempDir "angles" ".vrt" s.tmpCounter,
      ca.output,
      toString (truncInt (ca.cloudbufferdistance / (ext.imageInfo (optStr ca.toa)).xRes)),
      toString (truncInt (ca.shadowbufferdistance / (ext.imageInfo (optStr ca.toa)).xRes))])],
      ?_⟩
    rw [(removeIfExists_run _ _).2.2.1, (removeIfExists_run _ _).2.2.1]
    rfl
  intro f
  rw [(removeIfExists_run _ _).2.2.2 f, (removeIfExists_run _ _).2.2.2 f]
  simp only [List.mem_filter, List.mem_cons, decide_eq_true_eq]
  constructor
  · rintro ⟨⟨⟨hm, hnv⟩, hnt⟩, hna⟩
    rcases hm with hm | hm | hm
    · exact ⟨Or.inl hm, hnv, hnt, hna⟩
    · exact absurd hm hnv
    · exact ⟨Or.inr hm, hnv, hnt, hna⟩
  · rintro ⟨hm, hnv, hnt, hna⟩
    rcases hm with hm | hm
    · exact ⟨⟨⟨Or.inl hm, hnv⟩, hnt⟩, hna⟩
    · exact ⟨⟨⟨Or.inr (Or.inr hm), hnv⟩, hnt⟩, hna⟩

theorem mainTail_run_ne_keep {ext : Ext} (hdet : ext.detectOk = true) (ca : CmdArgs)
    (ts : Bool) (s : FS)
    (hc : (ext.imageInfo (optStr ca.toa)).xRes ≠ (ext.imageInfo (optStr ca.anglesfile)).xRes ∨
      (ext.imageInfo (optStr ca.toa)).yRes ≠ (ext.imageInfo (optStr ca.anglesfile)).yRes)
    (hvrt : mkname sysTempDir "angles" ".vrt" s.tmpCounter ≠ optStr ca.anglesfile)
    (hb : (ts && !ca.keepintermediates) = false) :
    ∃ s2, mainTail ext ca ts s = (Except.ok (), s2) ∧
      (∀ f, f ∈ s2.files ↔
        (f = ca.output ∨ f ∈ s.files) ∧
        f ≠ mkname sysTempDir "angles" ".vrt" s.tmpCounter) := by
  unfold mainTail
  simp only [bind_def]
  rw [mBind_ok (checkAnglesFile_run_ne ext _ _ s hc)]
  try dsimp only
  rw [mBind_ok (doFmask_run_ok hdet _ _ _ _ _ _)]
  try dsimp only
  rw [if_pos hvrt]
  rw [mBind_ok (osRemove_run _ _)]
  try dsimp only
  simp only [hb]
  rw [if_neg (by simp)]
  refine ⟨_, rfl, ?_⟩
  intro f
  try dsimp only
  simp only [List.mem_filter, List.mem_cons, decide_eq_true_eq]
  constructor
  · rintro ⟨hm, hnv⟩
    rcases hm with hm | hm | hm
    · exact ⟨Or.inl hm, hnv⟩
    · exact absurd hm hnv
    · exact ⟨Or.inr hm, hnv⟩
  · rintro ⟨hm, hnv⟩
    rcases hm with hm | hm
    · exact ⟨Or.inl hm, hnv⟩
    · exact ⟨Or.inr (Or.inr hm), hnv⟩

theorem mainTail_run_eq_clean {ext : Ext} (hdet : ext.detectOk = true) (ca : CmdArgs)
    (ts : Bool) (s : FS)
    (hcx : (ext.imageInfo (optStr ca.toa)).xRes = (ext.imageInfo (optStr ca.anglesfile)).xRes)
    (hcy : (ext.imageInfo (optStr ca.toa)).yRes = (ext.imageInfo (optStr ca.anglesfile)).yRes)
    (hb : (ts && !ca.keepintermediates) = true) :
    ∃ s2, mainTail ext ca ts s = (Except.ok (), s2) ∧
      (∀ f, f ∈ s2.files ↔
        (f = ca.output ∨ f ∈ s.files) ∧
        f ≠ optStr ca.toa ∧ f ≠ optStr ca.anglesfile) := by
  unfold mainTail
  simp only [bind_def]
  rw [mBind_ok (checkAnglesFile_run_eq ext _ _ s hcx hcy)]
  try dsimp only
  rw [mBind_ok (doFmask_run_ok hdet _ _ _ _ _ _)]
  try dsimp only
  rw [if_neg (by simp)]
  rw [pure_def, mPure_bind]
  simp only [hb]
  rw [if_pos trivial]
  rw [mBind_ok (removeIfExists_eq _ _)]
  refine ⟨_, removeIfExists_eq _ _, ?_⟩
  intro f
  rw [(removeIfExists_run _ _).2.2.2 f, (removeIfExists_run _ _).2.2.2 f]
  simp only [List.mem_cons]
  constructor
  · rintro ⟨⟨hm, hnt⟩, hna⟩
    exact ⟨hm, hnt, hna⟩
  · rintro ⟨hm, hnt, hna⟩
    exact ⟨⟨hm, hnt⟩, hna⟩

theorem mainTail_run_eq_keep {ext : Ext} (hdet : ext.detectOk = true) (ca : CmdArgs)
    (ts : Bool) (s : FS)
    (hcx : (ext.imageInfo (optStr ca.toa)).xRes = (ext.imageInfo (optStr ca.anglesfile)).xRes)
    (hcy : (ext.imageInfo (optStr ca.toa)).yRes = (ext.imageInfo (optStr ca.anglesfile)).yRes)
    (hb : (ts && !ca.keepintermediates) = false) :
    ∃ s2, mainTail ext ca ts s = (Except.ok (), s2) ∧
      (∀ f, f ∈ s2.files ↔ (f = ca.output ∨ f ∈ s.files)) := by
  unfold mainTail
  simp only [bind_def]
  rw [mBind_ok (checkAnglesFile_run_eq ext _ _ s hcx hcy)]
  try dsimp only
  rw [mBind_ok (doFmask_run_ok hdet _ _ _ _ _ _)]
  try dsimp only
  rw [if_neg (by simp)]
  rw [pure_def, mPure_bind]
  simp only [hb]
  rw [if_neg (by simp)]
  refine ⟨_, rfl, ?_⟩
  intro f
  simp only [List.mem_cons]

/-- C8: stack assembly is order-preserving: on every successful run the merge
tool receives, after its fixed options, exactly the per-band intermediates in
band-list order, and the intermediate at position N is the temp VRT generated
for the N-th band identifier of the fixed band list, for every filesystem
content and hence regardless of the order in which files are discovered on
disk. -/
theorem C8_stack_order (ext : Ext) (ca ca' : CmdArgs) (bands : List String) (s s1 : FS)
    (h : makeStackAndAngles ext ca s = (Except.ok (ca', bands), s1)) :
    (∃ rest, s1.calls = ("gdal_merge.py",
        ["-q", "-of", DEFAULTDRIVERNAME] ++ CMDLINECREATIONOPTIONS ++
          ["-separate", "-o", stkName ca s] ++ bands) :: rest) ∧
    bands.length = bandList.length ∧
    (∀ i, i < bandList.length →
      bands.getD i "" =
        mkname ca.tempdir ("tmp_" ++ bandList.getD i "" ++ "_") ".vrt" (s.tmpCounter + 1 + i)) := by
  obtain ⟨_, _, _, hbands, _, hcalls, _⟩ := makeStackAndAngles_ok_spec h
  refine ⟨hcalls, ?_, ?_⟩
  · rw [hbands, genBandNames_length]
  · intro i hi
    rw [hbands]
    exact genBandNames_getD ca.tempdir bandList (s.tmpCounter + 1) i hi

/-- Witness for C8: on the standard run the merge invocation lists the band
intermediates in band-list order; position 8 carries band B8A. -/
theorem C8_witness :
    bandsW.length = bandList.length ∧
    bandsW.getD 8 "" = "./tmp_B8A_9.vrt" ∧
    bandList.getD 8 "" = "B8A" ∧
    (∃ s1 rest, makeStackAndAngles extGood caW fsW = (Except.ok (caW2, bandsW), s1) ∧
      s1.calls = ("gdal_merge.py",
        ["-q", "-of", DEFAULTDRIVERNAME] ++ CMDLINECREATIONOPTIONS ++
          ["-separate", "-o", "./tmp_allbands_14.img"] ++ bandsW) :: rest) := by
  obtain ⟨s1, hmk, _, _, _⟩ := stackRunGood
  have h := C8_stack_order extGood caW caW2 bandsW fsW s1 hmk
  obtain ⟨rest, hc⟩ := h.1
  exact ⟨h.2.1, h.2.2 8 (by decide), by decide, ⟨s1, rest, hmk, hc⟩⟩

/-- C9 (amended): of the temporary artifacts the pipeline creates, the
computed angles file, every per-band intermediate and the assembled stack are
created inside the configured temp directory; the reconciled-angles virtual
raster, however, is created in the process default temporary directory,
independent of the configured setting. -/
theorem C9_temp_artifact_locations (ext : Ext) (ca ca' : CmdArgs) (bands : List String)
    (s s1 : FS)
    (hmk : makeStackAndAngles ext ca s = (Except.ok (ca', bands), s1)) :
    (∃ r1, ca'.anglesfile = some (ca.tempdir ++ "/" ++ r1)) ∧
    (∃ r2, ca'.toa = some (ca.tempdir ++ "/" ++ r2)) ∧
    (∀ b ∈ bands, ∃ r3, b = ca.tempdir ++ "/" ++ r3) ∧
    (∀ a t : String,
      (ext.imageInfo t).xRes ≠ (ext.imageInfo a).xRes ∨
        (ext.imageInfo t).yRes ≠ (ext.imageInfo a).yRes →
      ∀ v s2, checkAnglesFile ext a t s1 = (Except.ok v, s2) →
        ∃ r4, v = sysTempDir ++ "/" ++ r4) := by
  obtain ⟨_, hang, htoa, hbands, _, _, _⟩ := makeStackAndAngles_ok_spec hmk
  refine ⟨?_, ?_, ?_, ?_⟩
  · obtain ⟨r, hr⟩ := mkname_split ca.tempdir "angles_tmp_" ".img" s.tmpCounter
    exact ⟨r, by rw [hang]; exact congrArg some hr⟩
  · obtain ⟨r, hr⟩ := mkname_split ca.tempdir "tmp_allbands_" ".img" (s.tmpCounter + 14)
    exact ⟨r, by rw [htoa]; exact congrArg some hr⟩
  · intro b hb
    rw [hbands] at hb
    obtain ⟨bb, c2, hbb⟩ := genBandNames_mem hb
    obtain ⟨r, hr⟩ := mkname_split ca.tempdir ("tmp_" ++ bb ++ "_") ".vrt" c2
    exact ⟨r, hbb.trans hr⟩
  · intro a t hne v s2 hch
    rw [checkAnglesFile_run_ne ext a t s1 hne] at hch
    injection hch with hpair _
    injection hpair with hv
    obtain ⟨r, hr⟩ := mkname_split sysTempDir "angles" ".vrt" s1.tmpCounter
    exact ⟨r, hv.symm.trans hr⟩

/-- Witness for C9 (amended): on the ./mytmp run, the angles file, the stack
and every band intermediate live under ./mytmp, while the reconciled VRT of
the mismatching angles grid is returned from the process temp directory. -/
theorem C9_witness :
    ∃ s1, makeStackAndAngles extMM caMM fsW = (Except.ok (caMM2, bandsM), s1) ∧
      (∃ r1, caMM2.anglesfile = some ("./mytmp" ++ "/" ++ r1)) ∧
      (∃ r2, caMM2.toa = some ("./mytmp" ++ "/" ++ r2)) ∧
      (∀ b ∈ bandsM, ∃ r3, b = "./mytmp" ++ "/" ++ r3) ∧
      (∀ v s2, checkAnglesFile extMM "./mytmp/angles_tmp_0.img"
          "./mytmp/tmp_allbands_14.img" s1 = (Except.ok v, s2) →
        ∃ r4, v = sysTempDir ++ "/" ++ r4) := by
  obtain ⟨s1, hmk, _, _, _⟩ := stackRunMm
  have h := C9_temp_artifact_locations extMM caMM caMM2 bandsM fsW s1 hmk
  refine ⟨s1, hmk, h.1, h.2.1, h.2.2.1, ?_⟩
  intro v s2 hch
  exact h.2.2.2 "./mytmp/angles_tmp_0.img" "./mytmp/tmp_allbands_14.img"
    (by decide) v s2 hch

/-- Counterexample for C9 as stated: a run configured with temp directory
./mytmp, whose angles grid mismatches the stack grid, invokes gdalwarp to
create the reconciled-angles VRT at /tmp/angles15.vrt, a path outside the
configured temp directory. -/
theorem C9_counterexample :
    (∃ s2, mainRoutine extMM caMM fsW = (Except.ok (), s2) ∧
      (GDALWARPCMD, ["-q", "-of", "VRT", "-tr", "20", "20", "-te", "0", "0", "100", "100",
        "-r", "near", "./mytmp/angles_tmp_0.img", "/tmp/angles15.vrt"]) ∈ s2.calls) ∧
    caMM.tempdir = "./mytmp" ∧
    "./mytmp".toList.isPrefixOf "/tmp/angles15.vrt".toList = false := by
  obtain ⟨s1, hmk, hcnt, _, _⟩ := stackRunMm
  have hmr := mainRoutine_built (by decide) hmk
  obtain ⟨s2, htail, ⟨pre, hcalls⟩, _⟩ :=
    @mainTail_run_ne_clean extMM rfl caMM2 true s1 (by decide)
      (by rw [hcnt]; decide) (by decide)
  rw [hcnt] at hcalls
  refine ⟨⟨s2, by rw [hmr]; exact htail, ?_⟩, rfl, by decide⟩
  rw [hcalls]
  exact List.mem_append_right _ (List.mem_cons_self _ _)

/-- C6: cleanup policy after a successful run.  On every successful stack
construction the per-band intermediates are already deleted when
makeStackAndAngles returns, before and therefore regardless of the retention
setting; then, on a successful detection run, the built stack and the
computed angles file are absent from the final state exactly when retention
is disabled and present when it is enabled; a reconciled-angles derivative
(created when the grids mismatch) is absent from the final state under every
setting; and in a run on caller-supplied stack and angles files (modelled
with the freshness of the generated derivative name that tempfile.mkstemp
guarantees), the caller files are never deleted. -/
theorem C6_cleanup_policy (ext : Ext) (ca : CmdArgs) (s : FS)
    (hdet : ext.detectOk = true) :
    (∀ ca' bands s1, makeStackAndAngles ext ca s = (Except.ok (ca', bands), s1) →
      (∀ b ∈ bands, b ∉ s1.files) ∧
      ((ca.safedir.isSome || ca.granuledir.isSome) = true →
        ∃ s2, mainRoutine ext ca s = (Except.ok (), s2) ∧
          (ca.keepintermediates = false →
            optStr ca'.toa ∉ s2.files ∧ optStr ca'.anglesfile ∉ s2.files) ∧
          (ca.keepintermediates = true →
            optStr ca'.toa ∈ s2.files ∧ optStr ca'.anglesfile ∈ s2.files) ∧
          ((ext.imageInfo (optStr ca'.toa)).xRes ≠
              (ext.imageInfo (optStr ca'.anglesfile)).xRes ∨
            (ext.imageInfo (optStr ca'.toa)).yRes ≠
              (ext.imageInfo (optStr ca'.anglesfile)).yRes →
            mkname sysTempDir "angles" ".vrt" s1.tmpCounter ∉ s2.files))) ∧
    (ca.safedir = none → ca.granuledir = none →
      optStr ca.toa ≠ mkname sysTempDir "angles" ".vrt" s.tmpCounter →
      optStr ca.anglesfile ≠ mkname sysTempDir "angles" ".vrt" s.tmpCounter →
      ∃ s2, mainRoutine ext ca s = (Except.ok (), s2) ∧
        (optStr ca.toa ∈ s.files → optStr ca.toa ∈ s2.files) ∧
        (optStr ca.anglesfile ∈ s.files → optStr ca.anglesfile ∈ s2.files)) := by
  constructor
  · intro ca' bands s1 hmk
    obtain ⟨⟨g, hca'⟩, hang, htoa, hbands, hcnt, hcalls, hfiles⟩ :=
      makeStackAndAngles_ok_spec hmk
    have hkeq : ca'.keepintermediates = ca.keepintermediates := by rw [hca']
    have htoa1 : optStr ca'.toa ∈ s1.files := by
      rw [htoa, optStr]
      refine (hfiles _).mpr ⟨Or.inl rfl, ?_⟩
      rw [hbands]
      exact img_not_in_genBandNames _ _ _ _ _ _
    have hang1 : optStr ca'.anglesfile ∈ s1.files := by
      rw [hang, optStr]
      refine (hfiles _).mpr ⟨Or.inr (Or.inl rfl), ?_⟩
      rw [hbands]
      exact img_not_in_genBandNames _ _ _ _ _ _
    have htoa_nv : optStr ca'.toa ≠ mkname sysTempDir "angles" ".vrt" s1.tmpCounter := by
      rw [htoa]
      exact mkname_img_ne_vrt _ _ _ _ _ _
    have hang_nv : optStr ca'.anglesfile ≠ mkname sysTempDir "angles" ".vrt" s1.tmpCounter := by
      rw [hang]
      exact mkname_img_ne_vrt _ _ _ _ _ _
    have hvrt : mkname sysTempDir "angles" ".vrt" s1.tmpCounter ≠ optStr ca'.anglesfile :=
      Ne.symm hang_nv
    refine ⟨?_, ?_⟩
    · intro b hb hbin
      exact ((hfiles b).mp hbin).2 hb
    · intro hmode
      have hmr := mainRoutine_built hmode hmk
      by_cases hgrid : (ext.imageInfo (optStr ca'.toa)).xRes ≠
          (ext.imageInfo (optStr ca'.anglesfile)).xRes ∨
          (ext.imageInfo (optStr ca'.toa)).yRes ≠
            (ext.imageInfo (optStr ca'.anglesfile)).yRes
      · by_cases hk : ca.keepintermediates = true
        · have hb : (true && !ca'.keepintermediates) = false := by rw [hkeq, hk]; rfl
          obtain ⟨s2, htail, hmem⟩ := @mainTail_run_ne_keep ext hdet ca' true s1 hgrid hvrt hb
          refine ⟨s2, by rw [hmr]; exact htail, ?_, ?_, ?_⟩
          · intro hk0
            exact absurd (hk0.symm.trans hk) (by decide)
          · intro _
            exact ⟨(hmem _).mpr ⟨Or.inr htoa1, htoa_nv⟩,
              (hmem _).mpr ⟨Or.inr hang1, hang_nv⟩⟩
          · intro _ hmemv
            exact ((hmem _).mp hmemv).2 rfl
        · have hk2 : ca.keepintermediates = false := by
            cases hq : ca.keepintermediates
            · rfl
            · exact absurd hq hk
          have hb : (true && !ca'.keepintermediates) = true := by rw [hkeq, hk2]; rfl
          obtain ⟨s2, htail, _, hmem⟩ :=
            @mainTail_run_ne_clean ext hdet ca' true s1 hgrid hvrt hb
          refine ⟨s2, by rw [hmr]; exact htail, ?_, ?_, ?_⟩
          · intro _
            exact ⟨fun hmemv => ((hmem _).mp hmemv).2.2.1 rfl,
              fun hmemv => ((hmem _).mp hmemv).2.2.2 rfl⟩
          · intro hk1
            exact absurd (hk1.symm.trans hk2) (by decide)
          · intro _ hmemv
            exact ((hmem _).mp hmemv).2.1 rfl
      · push_neg at hgrid
        obtain ⟨hgx, hgy⟩ := hgrid
        by_cases hk : ca.keepintermediates = true
        · have hb : (true && !ca'.keepintermediates) = false := by rw [hkeq, hk]; rfl
          obtain ⟨s2, htail, hmem⟩ := @mainTail_run_eq_keep ext hdet ca' true s1 hgx hgy hb
          refine ⟨s2, by rw [hmr]; exact htail, ?_, ?_, ?_⟩
          · intro hk0
            exact absurd (hk0.symm.trans hk) (by decide)
          · intro _
            exact ⟨(hmem _).mpr (Or.inr htoa1), (hmem _).mpr (Or.inr hang1)⟩
          · intro hgrid2
            rcases hgrid2 with h2 | h2
            · exact absurd hgx h2
            · exact absurd hgy h2
        · have hk2 : ca.keepintermediates = false := by
            cases hq : ca.keepintermediates
            · rfl
            · exact absurd hq hk
          have hb : (true && !ca'.keepintermediates) = true := by rw [hkeq, hk2]; rfl
          obtain ⟨s2, htail, hmem⟩ := @mainTail_run_eq_clean ext hdet ca' true s1 hgx hgy hb
          refine ⟨s2, by rw [hmr]; exact htail, ?_, ?_, ?_⟩
          · intro _
            exact ⟨fun hmemv => ((hmem _).mp hmemv).2.1 rfl,
              fun hmemv => ((hmem _).mp hmemv).2.2 rfl⟩
          · intro hk1
            exact absurd (hk1.symm.trans hk2) (by decide)
          · intro hgrid2
            rcases hgrid2 with h2 | h2
            · exact absurd hgx h2
            · exact absurd hgy h2
  · intro hsafe hgran hfT hfA
    have hmr := mainRoutine_direct ext s hsafe hgran
    by_cases hgrid : (ext.imageInfo (optStr ca.toa)).xRes ≠
        (ext.imageInfo (optStr ca.anglesfile)).xRes ∨
        (ext.imageInfo (optStr ca.toa)).yRes ≠ (ext.imageInfo (optStr ca.anglesfile)).yRes
    · obtain ⟨s2, htail, hmem⟩ :=
        @mainTail_run_ne_keep ext hdet ca false s hgrid (Ne.symm hfA) rfl
      refine ⟨s2, by rw [hmr]; exact htail, ?_, ?_⟩
      · intro hin
        exact (hmem _).mpr ⟨Or.inr hin, hfT⟩
      · intro hin
        exact (hmem _).mpr ⟨Or.inr hin, hfA⟩
    · push_neg at hgrid
      obtain ⟨hgx, hgy⟩ := hgrid
      obtain ⟨s2, htail, hmem⟩ := @mainTail_run_eq_keep ext hdet ca false s hgx hgy rfl
      refine ⟨s2, by rw [hmr]; exact htail, ?_, ?_⟩
      · intro hin
        exact (hmem _).mpr (Or.inr hin)
      · intro hin
        exact (hmem _).mpr (Or.inr hin)

/-- Witness for C6: on the standard retention-disabled run, the band
intermediates are gone when the stack builder returns, the run succeeds, and
neither the stack nor the computed angles file survives. -/
theorem C6_witness :
    ∃ s1 s2, makeStackAndAngles extGood caW fsW = (Except.ok (caW2, bandsW), s1) ∧
      (∀ b ∈ bandsW, b ∉ s1.files) ∧
      mainRoutine extGood caW fsW = (Except.ok (), s2) ∧
      "./tmp_allbands_14.img" ∉ s2.files ∧ "./angles_tmp_0.img" ∉ s2.files := by
  obtain ⟨s1, hmk, _, _, _⟩ := stackRunGood
  have h := (C6_cleanup_policy extGood caW fsW rfl).1 caW2 bandsW s1 hmk
  obtain ⟨s2, hrun, hclean, _, _⟩ := h.2 (by decide)
  obtain ⟨ht, ha⟩ := hclean rfl
  exact ⟨s1, s2, hmk, h.1, hrun, ht, ha⟩

end Sentinel2Stacked
